import Mathlib

/-!
Verification model of the homelander smart-home fulfillment crate.

The development shallowly embeds the crate's data model and the three
intent pipelines (SYNC / QUERY / EXECUTE) in Lean:

* request side  : `src/fulfillment/request.rs` (`Request`, `Input`,
  `CommandType` together with its serde command tags),
* response side : `src/fulfillment/response.rs` (`CommandStatus`,
  `CommandState`, `QueryStatus`, `QueryDeviceState`, ...),
* error taxonomy: `src/execute_error.rs`, `src/serializable_error.rs` and
  the per-capability error unions in `src/traits/*.rs`,
* device layer  : `src/device.rs` (`Device`, `DeviceTraits`, `query`,
  `query_get_states`, `execute`, `execute_inner`, the `set_*` trait
  registration methods),
* orchestrator  : `src/lib.rs` (`Homelander::handle_request`,
  `Homelander::execute`, `Homelander::sync`).

Rust trait objects are modelled as records of functions over an abstract
device-state type `σ`; `Rc<RefCell<T>>` sharing is modelled by keeping one
state value and one implementation record per `Device`, which every
populated capability slot aliases.  Machine integers `i32`/`i64` are
modelled as `Int`; `f32` values are carried opaquely (`F32`), since the
dispatcher never computes with them.  Fallible Rust methods return
`Except`; `panic!` and `Vec::remove` out-of-bounds aborts are modelled
with the explicit `PanicOr` outcome type.
-/

namespace HomelanderModel

/-- Outcome of a Rust computation that may abort the process with a panic
(`panic!`, out-of-bounds `Vec::remove`, `Option::unwrap` on `None`). -/
inductive PanicOr (α : Type) where
  | panicked (msg : String)
  | ok (val : α)
deriving Repr

/-- Opaque carrier for Rust `f32` parameters and state values.  The crate
only moves these values between requests, devices and responses; it never
performs floating-point arithmetic on them, so an opaque carrier is a
faithful model. -/
structure F32 where
  bits : Nat
deriving DecidableEq, Repr

/-- Supported languages (`src/traits/mod.rs`, `enum Language`). -/
inductive Language where
  | Danish | Dutch | English | French | German | Hindi | Indonesian
  | Italian | Japanese | Korean | Norwegian | Portuguese | Spanish
  | Swedish | Thai | Chinese
deriving DecidableEq, Repr

/-- Size units (`src/traits/mod.rs`, `enum SizeUnit`). -/
inductive SizeUnit where
  | UnknownUnits | NoUnits | Centimeters | Cups | Deciliters | Feet
  | FluidOunces | Gallons | Grams | Inches | Kilograms | Liters | Meters
  | Milligrams | Milliliters | Millimeters | Ounces | Pinch | Pints
  | Portion | Pounds | Quarts | Tablespoons | Teaspoons
deriving DecidableEq, Repr

/-- Cooking modes (`src/traits/cook.rs`, `enum CookingMode`). -/
inductive CookingMode where
  | None | UnknownCookingMode | Bake | Beat | Blend | Boil | Brew | Broil
  | ConvectionBake | Cook | Defrost | Dehydrate | Ferment | Fry | Grill
  | Knead | Microwave | Mix | PressureCook | Puree | Roast | Saute
  | SlowCook | SousVide | Steam | Stew | Stir | Warm | Whip
deriving DecidableEq, Repr

/-- Cooking configuration passed to `Cook::start`
(`src/traits/cook.rs`, `struct CookingConfig`). -/
structure CookingConfig where
  cooking_mode : Option CookingMode
  food_preset : Option String
  quantity : Option Int
  unit : Option SizeUnit
deriving DecidableEq, Repr

/-- Thermostat modes (`src/traits/temperature_setting.rs`,
`enum ThermostatMode`). -/
inductive ThermostatMode where
  | None | Off | Heat | Cool | On | Heatcool | Auto | FanOnly | Purifier
  | Eco | Dry
deriving DecidableEq, Repr

/-- Opening directions (`src/traits/open_close.rs`, `enum OpenDirection`). -/
inductive OpenDirection where
  | Up | Down | Left | Right | In | Out
deriving DecidableEq, Repr

/-- Camera stream protocols (`src/traits/camera_stream.rs`,
`enum CameraStreamProtocol`). -/
inductive CameraStreamProtocol where
  | Hls | Dash | SmoothStream | ProgressiveMp4 | WebRtc
deriving DecidableEq, Repr

/-- HSV spectrum value (`src/traits/color_setting.rs`,
`struct SpectrumHsv`). -/
structure SpectrumHsv where
  hue : Int
  saturation : Int
  value : Int
deriving DecidableEq, Repr

/-- Color requested by a `ColorAbsolute` command
(`src/traits/color_setting.rs`, `enum ColorCommand`). -/
inductive ColorCommand where
  | Temperature (kelvin : Int)
  | SpectrumRgb (value : Int)
  | SpectrumHsvColor (value : SpectrumHsv)
deriving DecidableEq, Repr

/-- Color state reported by QUERY (`src/traits/color_setting.rs`,
`struct Color`). -/
structure Color where
  temperature_k : Option Int
  spectrum_rgb : Option Int
  spectrum_hsv : Option SpectrumHsv
deriving DecidableEq, Repr

/-- Light effect types (`src/traits/light_effects.rs`,
`enum LightEffectType`). -/
inductive LightEffectType where
  | ColorLoop | Sleep | Wake
deriving DecidableEq, Repr

/-- Media activity states (`src/traits/media_state.rs`,
`enum ActivityState`). -/
inductive ActivityState where
  | Inactive | Standby | Active
deriving DecidableEq, Repr

/-- Media playback states (`src/traits/media_state.rs`,
`enum PlaybackState`). -/
inductive PlaybackState where
  | Paused | Playing | FastForwarding | Rewinding | Buffering | Stopped
deriving DecidableEq, Repr

/-- Battery capacity descriptions (`src/traits/energy_storage.rs`,
`enum CapacityState`). -/
inductive CapacityState where
  | CriticallyLow | Low | Medium | High | Full
deriving DecidableEq, Repr

/-- Capacity units (`src/traits/energy_storage.rs`, `enum CapacityUnit`). -/
inductive CapacityUnit where
  | Seconds | Miles | Kilometers | Percentage | KilowattHours
deriving DecidableEq, Repr

/-- Capacity value (`src/traits/energy_storage.rs`,
`struct CapacityValue`). -/
structure CapacityValue where
  raw_value : Int
  unit : CapacityUnit
deriving DecidableEq, Repr

/-- Dispensed amount; modelled opaquely by the item count field shape of
`src/traits/dispense.rs` (`struct DispenseAmount`): an amount plus unit. -/
structure DispenseAmount where
  amount : Int
  unit : SizeUnit
deriving DecidableEq, Repr

/-- Per-item dispense state (`src/traits/dispense.rs`,
`struct DispenseItemState`). -/
structure DispenseItemState where
  item_name : String
  amount_remaining : DispenseAmount
  amount_last_dispensed : DispenseAmount
  is_currently_dispensing : Bool
deriving DecidableEq, Repr

/-- Network SSID settings (`src/traits/network_control.rs`,
`struct NetworkSettings`). -/
structure NetworkSettings where
  ssid : String
deriving DecidableEq, Repr

/-- Speed test status (`src/traits/network_control.rs`,
`enum SpeedTestStatus`). -/
inductive SpeedTestStatus where
  | Success | Failure
deriving DecidableEq, Repr

/-- Result of the last download speed test
(`src/traits/network_control.rs`, `struct DownloadSpeedTestResult`). -/
structure DownloadSpeedTestResult where
  download_speed_mbps : F32
  unix_timestamp_sec : Int
  status : SpeedTestStatus
deriving DecidableEq, Repr

/-- Result of the last upload speed test
(`src/traits/network_control.rs`, `struct UploadSpeedTestResult`). -/
structure UploadSpeedTestResult where
  upload_speed_mbps : F32
  unix_timestamp_sec : Int
  status : SpeedTestStatus
deriving DecidableEq, Repr

/-- Enabled state of one network profile
(`src/traits/network_control.rs`, `struct NetworkProfileState`). -/
structure NetworkProfileState where
  enabled : Bool
deriving DecidableEq, Repr

/-- Open state for one direction (`src/traits/open_close.rs`,
`struct OpenState`). -/
structure OpenState where
  open_percent : F32
  open_direction : OpenDirection
deriving DecidableEq, Repr

/-- Current run cycle description (`src/traits/run_cycle.rs`,
`struct CurrentRunCycle`). -/
structure CurrentRunCycle where
  current_cycle : String
  next_cycle : Option String
  lang : Language
deriving DecidableEq, Repr

/-- Current sensor state (`src/traits/sensor_state.rs`,
`struct CurrentSensorState`). -/
structure CurrentSensorState where
  name : String
  current_sensor_state : Option String
  raw_value : Option F32
deriving DecidableEq, Repr

/-- Current status report entry (`src/traits/status_report.rs`,
`struct CurrentStatusReport`). -/
structure CurrentStatusReport where
  blocking : Bool
  device_target : String
  priority : Int
  status_code : Option String
deriving DecidableEq, Repr

/-- Thermostat QUERY state (`src/traits/temperature_setting.rs`,
`enum QueryThermostatMode` with its two payload structs). -/
inductive QueryThermostatMode where
  | Fixed (thermostat_mode : ThermostatMode)
      (thermostat_temperature_ambient : F32)
      (thermostat_temperature_setpoint : F32)
  | Range (thermostat_mode : ThermostatMode)
      (thermostat_temperature_ambient : F32)
      (thermostat_temperature_setpoint_high : F32)
      (thermostat_temperature_setpoint_low : F32)
deriving DecidableEq, Repr

/-- Camera stream access descriptor (`src/traits/camera_stream.rs`,
`enum CameraStreamAccess`). -/
inductive CameraStreamAccess where
  | WebRtc (camera_stream_signaling_url : String)
      (camera_stream_offer : Option String)
      (camera_stream_ice_server : Option String)
  | NonWebRtc (camera_stream_access_url : String)
      (camera_stream_receiver_app_id : Option String)
deriving DecidableEq, Repr

/-- Camera stream descriptor returned by `CameraStream::get_camera_stream`
(`src/traits/camera_stream.rs`, `struct CameraStreamDescriptor`). -/
structure CameraStreamDescriptor where
  camera_stream_auth_token : Option String
  camera_stream_protocol : CameraStreamProtocol
  access_descriptor : CameraStreamAccess
deriving DecidableEq, Repr

/-- Generic protocol-wide device error vocabulary
(`src/traits/mod.rs`, `enum DeviceError`).  The source declares the enum
with no variants yet (its body is a TODO), so the model type is empty. -/
inductive GlobalDeviceError where
deriving DecidableEq

/-- Generic protocol-wide device exception vocabulary
(`src/traits/mod.rs`, `enum DeviceException`).  Empty in the source. -/
inductive GlobalDeviceException where
deriving DecidableEq

/-- Display string of a `GlobalDeviceError` (uninhabited). -/
def GlobalDeviceError.display : GlobalDeviceError → String := fun e => nomatch e

/-- Display string of a `GlobalDeviceException` (uninhabited). -/
def GlobalDeviceException.display : GlobalDeviceException → String := fun e => nomatch e

/-- Error union shared by most capability methods
(`src/traits/mod.rs`, `enum CombinedDeviceError`).  The `Other` variant
wraps an arbitrary boxed error (`crate::SerializableError` in the
source); the model carries that error's display string. -/
inductive CombinedDeviceError where
  | DeviceError (e : GlobalDeviceError)
  | DeviceException (e : GlobalDeviceException)
  | Other (msg : String)
deriving DecidableEq

/-- Display (`thiserror` `#[error("{0}")]`) of a `CombinedDeviceError`. -/
def CombinedDeviceError.display : CombinedDeviceError → String
  | CombinedDeviceError.DeviceError e => e.display
  | CombinedDeviceError.DeviceException e => e.display
  | CombinedDeviceError.Other msg => msg

/-- Arm/disarm capability errors (`src/traits/arm_disarm.rs`,
`enum ArmDisarmError`). -/
inductive ArmDisarmError where
  | AlreadyInState
  | DeviceTampered
  | PassphraseIncorrect
  | PinIncorrect
  | SecurityRestrictions
  | TooManyFailedAttempts
  | UserCancelled
  | Other (e : CombinedDeviceError)
deriving DecidableEq

/-- Display strings of `ArmDisarmError` (its `#[error(...)]` attributes). -/
def ArmDisarmError.display : ArmDisarmError → String
  | ArmDisarmError.AlreadyInState => "alreadyInState"
  | ArmDisarmError.DeviceTampered => "deviceTampered"
  | ArmDisarmError.PassphraseIncorrect => "passphraseIncorrect"
  | ArmDisarmError.PinIncorrect => "pinIncorrect"
  | ArmDisarmError.SecurityRestrictions => "securityRestrictions"
  | ArmDisarmError.TooManyFailedAttempts => "tooManyFailedAttempts"
  | ArmDisarmError.UserCancelled => "userCancelled"
  | ArmDisarmError.Other e => e.display

/-- Cooking capability errors (`src/traits/cook.rs`, `enum CookError`). -/
inductive CookError where
  | DeviceDoorOpen
  | DeviceLidOpen
  | FractionalAmountNotSupported
  | AmountAboveLimit
  | UnknownFoodPreset
  | Other (e : CombinedDeviceError)
deriving DecidableEq

/-- Display strings of `CookError`. -/
def CookError.display : CookError → String
  | CookError.DeviceDoorOpen => "DeviceDoorOpen"
  | CookError.DeviceLidOpen => "DeviceLidOpen"
  | CookError.FractionalAmountNotSupported => "FractionalAmountNotSupported"
  | CookError.AmountAboveLimit => "AmountAboveLimit"
  | CookError.UnknownFoodPreset => "UnknownFoodPreset"
  | CookError.Other e => e.display

/-- Dispense device errors (`src/traits/dispense.rs`, `enum DeviceError`). -/
inductive DispenseDeviceError where
  | DispenseAmountRemainingExceeded
  | DispenseAmountAboveLimit
  | DispenseAmountBelowLimit
  | DispenseFractionalAmountNotSupported
  | GenericDispenseNotSupported
  | DispenseNotSupported
  | DispenseFractionalUnitNotSupported
  | DeviceCurrentlyDispensing
  | DeviceClogged
  | DeviceBusy
deriving DecidableEq

/-- Display strings of the dispense device errors. -/
def DispenseDeviceError.display : DispenseDeviceError → String
  | DispenseDeviceError.DispenseAmountRemainingExceeded => "DispenseAmountRemainingExceeded"
  | DispenseDeviceError.DispenseAmountAboveLimit => "DispenseAmountAboveLimit"
  | DispenseDeviceError.DispenseAmountBelowLimit => "DispenseAmountBelowLimit"
  | DispenseDeviceError.DispenseFractionalAmountNotSupported => "DispenseFractionalAmountNotSupported"
  | DispenseDeviceError.GenericDispenseNotSupported => "GenericDispenseNotSupported"
  | DispenseDeviceError.DispenseNotSupported => "DispenseNotSupported"
  | DispenseDeviceError.DispenseFractionalUnitNotSupported => "DispenseFractionalUnitNotSupported"
  | DispenseDeviceError.DeviceCurrentlyDispensing => "DeviceCurrentlyDispensing"
  | DispenseDeviceError.DeviceClogged => "DeviceClogged"
  | DispenseDeviceError.DeviceBusy => "DeviceBusy"

/-- Dispense device exceptions (`src/traits/dispense.rs`,
`enum DeviceException`). -/
inductive DispenseDeviceException where
  | AmountRemainingLow
  | UserNeedsToWait
deriving DecidableEq

/-- Display strings of the dispense device exceptions (note the source
spells the second one with a lowercase first letter). -/
def DispenseDeviceException.display : DispenseDeviceException → String
  | DispenseDeviceException.AmountRemainingLow => "AmountRemainingLow"
  | DispenseDeviceException.UserNeedsToWait => "userNeedsToWait"

/-- Dispense capability errors (`src/traits/dispense.rs`,
`enum DispenseError`). -/
inductive DispenseError where
  | Error (e : DispenseDeviceError)
  | Exception (e : DispenseDeviceException)
  | Other (e : CombinedDeviceError)
deriving DecidableEq

/-- Display of `DispenseError`. -/
def DispenseError.display : DispenseError → String
  | DispenseError.Error e => e.display
  | DispenseError.Exception e => e.display
  | DispenseError.Other e => e.display

/-- Energy storage device errors (`src/traits/energy_storage.rs`,
`enum DeviceError`). -/
inductive EnergyStorageDeviceError where
  | DeviceUnplugged
deriving DecidableEq

/-- Display of the energy storage device errors. -/
def EnergyStorageDeviceError.display : EnergyStorageDeviceError → String
  | EnergyStorageDeviceError.DeviceUnplugged => "DeviceUnplugged"

/-- Energy storage capability errors (`src/traits/energy_storage.rs`,
`enum EnergyStorageError`). -/
inductive EnergyStorageError where
  | Device (e : EnergyStorageDeviceError)
  | Other (e : CombinedDeviceError)
deriving DecidableEq

/-- Display of `EnergyStorageError`. -/
def EnergyStorageError.display : EnergyStorageError → String
  | EnergyStorageError.Device e => e.display
  | EnergyStorageError.Other e => e.display

/-- Fan speed device errors (`src/traits/fan_speed.rs`,
`enum DeviceError`). -/
inductive FanSpeedDeviceError where
  | MaxSpeedReached
  | MinSpeedReached
deriving DecidableEq

/-- Display of the fan speed device errors. -/
def FanSpeedDeviceError.display : FanSpeedDeviceError → String
  | FanSpeedDeviceError.MaxSpeedReached => "MaxSpeedReached"
  | FanSpeedDeviceError.MinSpeedReached => "MinSpeedReached"

/-- Fan speed capability errors (`src/traits/fan_speed.rs`,
`enum FanSpeedError`). -/
inductive FanSpeedError where
  | Device (e : FanSpeedDeviceError)
  | Other (e : CombinedDeviceError)
deriving DecidableEq

/-- Display of `FanSpeedError`. -/
def FanSpeedError.display : FanSpeedError → String
  | FanSpeedError.Device e => e.display
  | FanSpeedError.Other e => e.display

/-- Input selector device errors (`src/traits/input_selector.rs`,
`enum DeviceError`). -/
inductive InputSelectorDeviceError where
  | UnsupportedInput
deriving DecidableEq

/-- Display of the input selector device errors. -/
def InputSelectorDeviceError.display : InputSelectorDeviceError → String
  | InputSelectorDeviceError.UnsupportedInput => "UnsupportedInput"

/-- Input selector capability errors (`src/traits/input_selector.rs`,
`enum InputSelectorError`). -/
inductive InputSelectorError where
  | Device (e : InputSelectorDeviceError)
  | Other (e : CombinedDeviceError)
deriving DecidableEq

/-- Display of `InputSelectorError`. -/
def InputSelectorError.display : InputSelectorError → String
  | InputSelectorError.Device e => e.display
  | InputSelectorError.Other e => e.display

/-- Lock/unlock device errors (`src/traits/lock_unlock.rs`,
`enum DeviceError`).  Note the `#[error(...)]` display strings are
PascalCase in the source even though the enum carries a serde
`rename_all = "camelCase"` attribute. -/
inductive LockUnlockDeviceError where
  | RemoteSetDisabled
  | DeviceJammingDetected
  | NotSupported
  | AlreadyLocked
  | AlreadyUnlocked
deriving DecidableEq

/-- Display strings of the lock/unlock device errors, exactly as written
in the `#[error(...)]` attributes of `src/traits/lock_unlock.rs`. -/
def LockUnlockDeviceError.display : LockUnlockDeviceError → String
  | LockUnlockDeviceError.RemoteSetDisabled => "RemoteSetDisabled"
  | LockUnlockDeviceError.DeviceJammingDetected => "DeviceJammingDetected"
  | LockUnlockDeviceError.NotSupported => "NotSupported"
  | LockUnlockDeviceError.AlreadyLocked => "AlreadyLocked"
  | LockUnlockDeviceError.AlreadyUnlocked => "AlreadyUnlocked"

/-- Lock/unlock capability errors (`src/traits/lock_unlock.rs`,
`enum LockUnlockError`). -/
inductive LockUnlockError where
  | Device (e : LockUnlockDeviceError)
  | Other (e : CombinedDeviceError)
deriving DecidableEq

/-- Display of `LockUnlockError`. -/
def LockUnlockError.display : LockUnlockError → String
  | LockUnlockError.Device e => e.display
  | LockUnlockError.Other e => e.display

/-- Network control device errors (`src/traits/network_control.rs`,
`enum DeviceError`). -/
inductive NetworkControlDeviceError where
  | NetworkProfileNotRecognized
  | NetworkSpeedTestInProgress
deriving DecidableEq

/-- Display of the network control device errors. -/
def NetworkControlDeviceError.display : NetworkControlDeviceError → String
  | NetworkControlDeviceError.NetworkProfileNotRecognized => "NetworkProfileNotRecognized"
  | NetworkControlDeviceError.NetworkSpeedTestInProgress => "NetworkSpeedTestInProgress"

/-- Network control capability errors (`src/traits/network_control.rs`,
`enum NetworkControlError`). -/
inductive NetworkControlError where
  | Device (e : NetworkControlDeviceError)
  | Other (e : CombinedDeviceError)
deriving DecidableEq

/-- Display of `NetworkControlError`. -/
def NetworkControlError.display : NetworkControlError → String
  | NetworkControlError.Device e => e.display
  | NetworkControlError.Other e => e.display

/-- Open/close device errors (`src/traits/open_close.rs`,
`enum DeviceError`). -/
inductive OpenCloseDeviceError where
  | LockedState
  | DeviceJammingDetected
deriving DecidableEq

/-- Display of the open/close device errors. -/
def OpenCloseDeviceError.display : OpenCloseDeviceError → String
  | OpenCloseDeviceError.LockedState => "LockedState"
  | OpenCloseDeviceError.DeviceJammingDetected => "DeviceJammingDetected"

/-- Open/close capability errors (`src/traits/open_close.rs`,
`enum OpenCloseError`). -/
inductive OpenCloseError where
  | Device (e : OpenCloseDeviceError)
  | OpenClose (e : CombinedDeviceError)
deriving DecidableEq

/-- Display of `OpenCloseError`. -/
def OpenCloseError.display : OpenCloseError → String
  | OpenCloseError.Device e => e.display
  | OpenCloseError.OpenClose e => e.display

/-- Serializable error wrapper (`src/serializable_error.rs`,
`struct SerializableError`).  The source wraps `Box<dyn ToStringError>`
and serializes it by emitting `self.0.to_string()` as a plain string; the
model carries that string. -/
structure SerializableError where
  msg : String
deriving DecidableEq, Repr

/-- Two-level dispatcher error (`src/execute_error.rs`,
`enum ExecuteError`).  `Serializable` carries the display string of the
boxed `dyn ToStringError`; `Server` carries the display string of the
boxed `dyn Error`. -/
inductive ExecuteError where
  | Serializable (msg : String)
  | Server (msg : String)
deriving DecidableEq, Repr

/-- Conversion `From<CombinedDeviceError> for ExecuteError`
(`src/execute_error.rs`): the `Other` case becomes a server error, the
two generic vocabularies stay serializable. -/
def ExecuteError.fromCombined : CombinedDeviceError → ExecuteError
  | CombinedDeviceError.Other msg => ExecuteError.Server msg
  | CombinedDeviceError.DeviceError e => ExecuteError.Serializable e.display
  | CombinedDeviceError.DeviceException e => ExecuteError.Serializable e.display

/-- Conversion generated by `impl_execute_error!(ArmDisarmError)`
(`src/execute_error.rs`): the whole union, including its `Other`
(infrastructure) variant, is boxed as a serializable error. -/
def ExecuteError.fromArmDisarm (e : ArmDisarmError) : ExecuteError :=
  ExecuteError.Serializable e.display

/-- Conversion generated by `impl_execute_error!(CookError)`. -/
def ExecuteError.fromCook (e : CookError) : ExecuteError :=
  ExecuteError.Serializable e.display

/-- Conversion generated by `impl_execute_error!(DispenseError)`. -/
def ExecuteError.fromDispense (e : DispenseError) : ExecuteError :=
  ExecuteError.Serializable e.display

/-- Conversion generated by `impl_execute_error!(EnergyStorageError)`. -/
def ExecuteError.fromEnergyStorage (e : EnergyStorageError) : ExecuteError :=
  ExecuteError.Serializable e.display

/-- Conversion generated by `impl_execute_error!(FanSpeedError)`. -/
def ExecuteError.fromFanSpeed (e : FanSpeedError) : ExecuteError :=
  ExecuteError.Serializable e.display

/-- Conversion generated by `impl_execute_error!(InputSelectorError)`. -/
def ExecuteError.fromInputSelector (e : InputSelectorError) : ExecuteError :=
  ExecuteError.Serializable e.display

/-- Conversion generated by `impl_execute_error!(LockUnlockError)`. -/
def ExecuteError.fromLockUnlock (e : LockUnlockError) : ExecuteError :=
  ExecuteError.Serializable e.display

/-- Conversion generated by `impl_execute_error!(NetworkControlError)`. -/
def ExecuteError.fromNetworkControl (e : NetworkControlError) : ExecuteError :=
  ExecuteError.Serializable e.display

/-- Conversion for `OpenCloseError` at the `?` sites of `execute_inner`.
The crate generates its `From` conversions with `impl_execute_error!`,
which folds the whole union into a serializable error; `OpenCloseError`
is consumed at the same kind of `?` site and is modelled with the same
fold. -/
def ExecuteError.fromOpenClose (e : OpenCloseError) : ExecuteError :=
  ExecuteError.Serializable e.display

set_option maxHeartbeats 1600000 in
/-- EXECUTE command union (`src/fulfillment/request.rs`,
`enum CommandType`), one variant per command accepted by the request
deserializer, carrying exactly the parameters of that command.
`HashMap<String, _>` parameters are modelled as association lists. -/
inductive CommandType where
  | AppInstall (new_application : Option String) (new_application_name : Option String)
  | AppSearch (new_application : Option String) (new_application_name : Option String)
  | AppSelect (new_application : Option String) (new_application_name : Option String)
  | ArmDisarm (follow_up_token : Option String) (arm : Bool) (cancel : Option Bool) (arm_level : Option String)
  | BrightnessAbsolute (brightness : Int)
  | BrightnessRelative (brightness_relative_percent : Option Int) (brightness_relative_weight : Option Int)
  | GetCameraStream (stream_to_chromecast : Bool) (supported_stream_protocols : List CameraStreamProtocol)
  | SelectChannel (channel_code : Option String) (channel_name : Option String) (channel_number : Option String)
  | RelativeChannel (relative_channel_change : Int)
  | ReturnChannel
  | ColorAbsolute (color : ColorCommand)
  | Cook (start : Bool) (cooking_mode : Option CookingMode) (food_preset : Option String) (quantity : Option Int) (unit : Option SizeUnit)
  | Dispense (item : Option String) (amount : Option Int) (unit : Option SizeUnit) (preset_name : Option String)
  | Dock
  | Charge (charge : Bool)
  | SetFanSpeed (fan_speed : Option String) (fan_speed_percent : Option F32)
  | SetFanSpeedRelative (fan_speed_relative_weight : Option Int) (fan_speed_relative_percent : Option F32)
  | Reverse
  | Fill (fill : Bool) (fill_level : Option String) (fill_percent : Option F32)
  | SetHumidity (humidity : Int)
  | HumidityRelative (humidity_relative_percent : Option Int) (humidity_relative_weight : Option Int)
  | SetInput (new_input : String)
  | NextInput
  | PreviousInput
  | ColorLoop (duration : Option Int)
  | Sleep (duration : Option Int)
  | StopEffect
  | Wake (duration : Option Int)
  | Locate (silence : Bool) (lang : Language)
  | LockUnlock (lock : Bool) (follow_up_token : String)
  | SetModes (update_mode_settings : List (String × String))
  | EnableDisableGuestNetwork (enable : Bool)
  | EnableDisableNetworkProfile (profile : String) (enable : Bool)
  | GetGuestNetworkPassword
  | TestNetworkSpeed (test_download_speed : Bool) (test_upload_speed : Bool) (follow_up_token : String)
  | OnOff («on» : Bool)
  | OpenClose (open_percent : F32) (open_direction : Option OpenDirection)
  | OpenCloseRelative (open_relative_percent : F32) (open_direction : Option OpenDirection)
  | Reboot
  | RotationAbsolute (rotation_degrees : Option F32) (rotation_percent : Option F32)
  | ActivateScene (deactivate : Bool)
  | SoftwareUpdate
  | StartStop (start : Bool) (zone : Option String) (multiple_zones : Option (List String))
  | PauseUnpause (pause : Bool)
  | SetTemperature (temperature : F32)
  | ThermostatTemperatureSetpoint (thermostat_temperature_setpoint : F32)
  | ThermostatTemperatureSetRange (thermostat_temperature_setpoint_high : F32) (thermostat_temperature_setpoint_low : F32)
  | ThermostatSetMode (thermostat_mode : ThermostatMode)
  | TemperatureRelative (thermostat_temperature_relative_degree : Option F32) (thermostat_temperature_relative_weight : Option F32)
  | TimerStart (timer_time_sec : Int)
  | TimerAdjust (timer_time_sec : Int)
  | TimerPause
  | TimerResume
  | TimerCancel
  | SetToggles (update_toggle_settings : List (String × Bool))
  | MediaStop
  | MediaNext
  | MediaPrevious
  | MediaPause
  | MediaResume
  | MediaSeekRelative (relative_position_ms : Int)
  | MediaSeekToPosition (abs_position_ms : Int)
  | MediaRepeatMode (is_on : Bool) (is_single : Option Bool)
  | MediaShuffle
  | MediaClosedCaptioningOn (closed_captioning_language : String) (user_query_language : String)
  | MediaClosedCaptioningOff
  | Mute (mute : Bool)
  | SetVolume (volume_level : Int)
  | VolumeRelative (relative_steps : Int)
deriving Repr

/-- Serde tag of each `CommandType` variant: the literal
`#[serde(rename = "...")]` string on that variant in
`src/fulfillment/request.rs` (the identifier the command deserializes
from).  Two strings are transcribed exactly as they appear in the
source: the `Wake` tag reads `actin.devices.commands.Wake` and the
`MediaRepeatMode` tag reads `action.devices.commands.` with nothing
after the final dot. -/
def CommandType.serdeTag : CommandType → String
  | CommandType.AppInstall _ _ => "action.devices.commands.appInstall"
  | CommandType.AppSearch _ _ => "action.devices.commands.appSearch"
  | CommandType.AppSelect _ _ => "action.devices.commands.appSelect"
  | CommandType.ArmDisarm _ _ _ _ => "action.devices.commands.ArmDisarm"
  | CommandType.BrightnessAbsolute _ => "action.devices.commands.BrightnessAbsolute"
  | CommandType.BrightnessRelative _ _ => "action.devices.commands.BrightnessRelative"
  | CommandType.GetCameraStream _ _ => "action.devices.commands.GetCameraStream"
  | CommandType.SelectChannel _ _ _ => "action.devices.commands.selectChannel"
  | CommandType.RelativeChannel _ => "action.devices.commands.relativeChannel"
  | CommandType.ReturnChannel => "action.devices.commands.returnChannel"
  | CommandType.ColorAbsolute _ => "action.devices.commands.ColorAbsolute"
  | CommandType.Cook _ _ _ _ _ => "action.devices.commands.Cook"
  | CommandType.Dispense _ _ _ _ => "action.devices.commands.Dispense"
  | CommandType.Dock => "action.devices.commands.Dock"
  | CommandType.Charge _ => "action.devices.commands.Charge"
  | CommandType.SetFanSpeed _ _ => "action.devices.commands.SetFanSpeed"
  | CommandType.SetFanSpeedRelative _ _ => "action.devices.commands.SetFanSpeedRelative"
  | CommandType.Reverse => "action.devices.commands.Reverse"
  | CommandType.Fill _ _ _ => "action.devices.commands.Fill"
  | CommandType.SetHumidity _ => "action.devices.commands.SetHumidity"
  | CommandType.HumidityRelative _ _ => "action.devices.commands.HumidityRelative"
  | CommandType.SetInput _ => "action.devices.commands.SetInput"
  | CommandType.NextInput => "action.devices.commands.NextInput"
  | CommandType.PreviousInput => "action.devices.commands.PreviousInput"
  | CommandType.ColorLoop _ => "action.devices.commands.ColorLoop"
  | CommandType.Sleep _ => "action.devices.commands.Sleep"
  | CommandType.StopEffect => "action.devices.commands.StopEffect"
  | CommandType.Wake _ => "actin.devices.commands.Wake"
  | CommandType.Locate _ _ => "action.devices.commands.Locate"
  | CommandType.LockUnlock _ _ => "action.devices.commands.LockUnlock"
  | CommandType.SetModes _ => "action.devices.commands.SetModes"
  | CommandType.EnableDisableGuestNetwork _ => "action.devices.commands.EnableDisableGuestNetwork"
  | CommandType.EnableDisableNetworkProfile _ _ => "action.devices.commands.EnableDisableNetworkProfile"
  | CommandType.GetGuestNetworkPassword => "action.devices.commands.GetGuestNetworkPassword"
  | CommandType.TestNetworkSpeed _ _ _ => "action.devices.commands.TestNetworkSpeed"
  | CommandType.OnOff _ => "action.devices.commands.OnOff"
  | CommandType.OpenClose _ _ => "action.devices.commands.OpenClose"
  | CommandType.OpenCloseRelative _ _ => "action.devices.commands.OpenCloseRelative"
  | CommandType.Reboot => "action.devices.commands.Reboot"
  | CommandType.RotationAbsolute _ _ => "action.devices.commands.RotationAbsolute"
  | CommandType.ActivateScene _ => "action.devices.commands.ActivateScene"
  | CommandType.SoftwareUpdate => "action.devices.commands.SoftwareUpdate"
  | CommandType.StartStop _ _ _ => "action.devices.commands.StartStop"
  | CommandType.PauseUnpause _ => "action.devices.commands.PauseUnpause"
  | CommandType.SetTemperature _ => "action.devices.commands.SetTemperature"
  | CommandType.ThermostatTemperatureSetpoint _ => "action.devices.commands.ThermostatTemperatureSetpoint"
  | CommandType.ThermostatTemperatureSetRange _ _ => "action.devices.commands.ThermostatTemperatureSetRange"
  | CommandType.ThermostatSetMode _ => "action.devices.commands.ThermostatSetMode"
  | CommandType.TemperatureRelative _ _ => "action.devices.commands.TemperatureRelative"
  | CommandType.TimerStart _ => "action.devices.commands.TimerStart"
  | CommandType.TimerAdjust _ => "action.devices.commands.TimerAdjust"
  | CommandType.TimerPause => "action.devices.commands.TimerPause"
  | CommandType.TimerResume => "action.devices.commands.TimerResume"
  | CommandType.TimerCancel => "action.devices.commands.TimerCancel"
  | CommandType.SetToggles _ => "action.devices.commands.SetToggles"
  | CommandType.MediaStop => "action.devices.commands.mediaStop"
  | CommandType.MediaNext => "action.devices.commands.mediaNext"
  | CommandType.MediaPrevious => "action.devices.commands.mediaPrevious"
  | CommandType.MediaPause => "action.devices.commands.mediaPause"
  | CommandType.MediaResume => "action.devices.commands.mediaResume"
  | CommandType.MediaSeekRelative _ => "action.devices.commands.mediaSeekRelative"
  | CommandType.MediaSeekToPosition _ => "action.devices.commands.mediaSeekToPosition"
  | CommandType.MediaRepeatMode _ _ => "action.devices.commands."
  | CommandType.MediaShuffle => "action.devices.commands.mediaShuffle"
  | CommandType.MediaClosedCaptioningOn _ _ => "action.devices.commands.mediaClosedCaptioningOn"
  | CommandType.MediaClosedCaptioningOff => "action.devices.commands.mediaClosedCaptioningOff"
  | CommandType.Mute _ => "action.devices.commands.mute"
  | CommandType.SetVolume _ => "action.devices.commands.setVolume"
  | CommandType.VolumeRelative _ => "action.devices.commands.volumeRelative"

/-- Common namespace of the published command identifiers
(`action.devices.commands.<CommandName>`). -/
def commandTagBase : String := "action.devices.commands."

/-- Capability tags (`crate::device_trait::Trait`).  The declaring file
`src/device_trait.rs` is not present under `src/`; the variants are
reconstructed from the `Trait::X` values pushed by the `set_*`
registration methods of `src/device.rs`, plus one tag for each remaining
`DeviceTraits` slot (`Fill`, `HumiditySetting`, `ObjectDetection`). -/
inductive Trait where
  | AppSelector | ArmDisarm | Brightness | CameraStream | Channel
  | ColorSetting | Cook | Dispense | Dock | EnergyStorage | FanSpeed
  | Fill | HumiditySetting | InputSelector | LightEffects | Locator
  | LockUnlock | MediaState | Modes | NetworkControl | ObjectDetection
  | OnOff | OpenClose | Reboot | Rotation | RunCycle | Scene
  | SensorState | SoftwareUpdate | StartStop | StatusReport
  | TemperatureControl | TemperatureSetting | Timer | Toggles
  | TransportControl | Volume
deriving DecidableEq, Repr

set_option maxHeartbeats 1600000 in
/-- Device types (`src/device_type.rs`, `enum DeviceType`). -/
inductive DeviceType where
  | AcUnit | Aircooler | Airfreshener | Airpurifier | AudioVideoReceiver
  | Awning | Bathtub | Bed | Blender | Blinds | Boiler | Camera
  | CarbonMonoxideDetector | Charger | Closet | CoffeeMaker | Cooktop
  | Curtain | Dehumidifier | Dehydrator | Dishwasher | Door | Doorbell
  | Drawer | Dryer | Fan | Faucet | Fireplace | Freezer | Fryer | Garage
  | Gate | Grill | Heater | Hood | Humidifier | Kettle | Light | Lock
  | Microwave | Mop | Mower | Multicooker | Network | Outlet | Oven
  | Pergola | Petfeeder | Pressurecooker | Radiator | Refrigerator
  | Remotecontrol | Router | Scene | SecuritySystem | Settop | Shower
  | Shutter | SmokeDetector | Soundbar | Sousvide | Speaker | Sprinkler
  | Standmixer | StreamingBox | StreamingSoundbar | StreamingStick
  | Switch | Thermostat | Tv | Vacuum | Valve | Washer | Waterheater
  | Waterpurifier | Watersoftener | Window | Yogurtmaker
deriving DecidableEq, Repr

/-- Variant name of a `DeviceType` as produced by strum's `AsRefStr`
derive (`src/device_type.rs`). -/
def DeviceType.asRefStr : DeviceType → String
  | DeviceType.AcUnit => "AcUnit"
  | DeviceType.Aircooler => "Aircooler"
  | DeviceType.Airfreshener => "Airfreshener"
  | DeviceType.Airpurifier => "Airpurifier"
  | DeviceType.AudioVideoReceiver => "AudioVideoReceiver"
  | DeviceType.Awning => "Awning"
  | DeviceType.Bathtub => "Bathtub"
  | DeviceType.Bed => "Bed"
  | DeviceType.Blender => "Blender"
  | DeviceType.Blinds => "Blinds"
  | DeviceType.Boiler => "Boiler"
  | DeviceType.Camera => "Camera"
  | DeviceType.CarbonMonoxideDetector => "CarbonMonoxideDetector"
  | DeviceType.Charger => "Charger"
  | DeviceType.Closet => "Closet"
  | DeviceType.CoffeeMaker => "CoffeeMaker"
  | DeviceType.Cooktop => "Cooktop"
  | DeviceType.Curtain => "Curtain"
  | DeviceType.Dehumidifier => "Dehumidifier"
  | DeviceType.Dehydrator => "Dehydrator"
  | DeviceType.Dishwasher => "Dishwasher"
  | DeviceType.Door => "Door"
  | DeviceType.Doorbell => "Doorbell"
  | DeviceType.Drawer => "Drawer"
  | DeviceType.Dryer => "Dryer"
  | DeviceType.Fan => "Fan"
  | DeviceType.Faucet => "Faucet"
  | DeviceType.Fireplace => "Fireplace"
  | DeviceType.Freezer => "Freezer"
  | DeviceType.Fryer => "Fryer"
  | DeviceType.Garage => "Garage"
  | DeviceType.Gate => "Gate"
  | DeviceType.Grill => "Grill"
  | DeviceType.Heater => "Heater"
  | DeviceType.Hood => "Hood"
  | DeviceType.Humidifier => "Humidifier"
  | DeviceType.Kettle => "Kettle"
  | DeviceType.Light => "Light"
  | DeviceType.Lock => "Lock"
  | DeviceType.Microwave => "Microwave"
  | DeviceType.Mop => "Mop"
  | DeviceType.Mower => "Mower"
  | DeviceType.Multicooker => "Multicooker"
  | DeviceType.Network => "Network"
  | DeviceType.Outlet => "Outlet"
  | DeviceType.Oven => "Oven"
  | DeviceType.Pergola => "Pergola"
  | DeviceType.Petfeeder => "Petfeeder"
  | DeviceType.Pressurecooker => "Pressurecooker"
  | DeviceType.Radiator => "Radiator"
  | DeviceType.Refrigerator => "Refrigerator"
  | DeviceType.Remotecontrol => "Remotecontrol"
  | DeviceType.Router => "Router"
  | DeviceType.Scene => "Scene"
  | DeviceType.SecuritySystem => "SecuritySystem"
  | DeviceType.Settop => "Settop"
  | DeviceType.Shower => "Shower"
  | DeviceType.Shutter => "Shutter"
  | DeviceType.SmokeDetector => "SmokeDetector"
  | DeviceType.Soundbar => "Soundbar"
  | DeviceType.Sousvide => "Sousvide"
  | DeviceType.Speaker => "Speaker"
  | DeviceType.Sprinkler => "Sprinkler"
  | DeviceType.Standmixer => "Standmixer"
  | DeviceType.StreamingBox => "StreamingBox"
  | DeviceType.StreamingSoundbar => "StreamingSoundbar"
  | DeviceType.StreamingStick => "StreamingStick"
  | DeviceType.Switch => "Switch"
  | DeviceType.Thermostat => "Thermostat"
  | DeviceType.Tv => "Tv"
  | DeviceType.Vacuum => "Vacuum"
  | DeviceType.Valve => "Valve"
  | DeviceType.Washer => "Washer"
  | DeviceType.Waterheater => "Waterheater"
  | DeviceType.Waterpurifier => "Waterpurifier"
  | DeviceType.Watersoftener => "Watersoftener"
  | DeviceType.Window => "Window"
  | DeviceType.Yogurtmaker => "Yogurtmaker"

/-- Conversion of a PascalCase variant name to SCREAMING_SNAKE case, as
performed by `convert_case::Case::ScreamingSnake` for the ASCII variant
names of `DeviceType`: an underscore is inserted at each
lowercase-to-uppercase boundary and everything is uppercased. -/
def toScreamingSnake (s : String) : String :=
  let step : (Bool × String) → Char → (Bool × String) := fun acc c =>
    let prevLower := acc.1
    let out := acc.2
    let out := if prevLower && c.isUpper then out.push '_' else out
    (c.isLower, out.push c.toUpper)
  (s.toList.foldl step (false, "")).2

/-- Namespace prefix of device type strings (`src/device_type.rs`,
`DEVICE_TYPE_PREFIX`). -/
def deviceTypeBase : String := "action.devices.types."

/-- Device type string sent in SYNC responses
(`DeviceType::as_device_type_string`, `src/device_type.rs`). -/
def DeviceType.as_device_type_string (d : DeviceType) : String :=
  deviceTypeBase ++ toScreamingSnake d.asRefStr

/-- Device name bundle of the identity contract
(`GoogleHomeDevice::get_device_name`).  The declaring file for the
current `DeviceName` is not under `src/` (the `src/traits/mod.rs` present
is a stale stub); the fields are reconstructed from the construction
sites in `src/lib.rs`, `src/device.rs` and `tests/execute.rs`. -/
structure DeviceName where
  name : String
  default_names : List String
  nicknames : List String
deriving DecidableEq, Repr

/-- Device info bundle of the identity contract
(`GoogleHomeDevice::get_device_info`); fields reconstructed from its use
sites (`manufacturer`, `model`, `hw`, `sw`). -/
structure DeviceInfo where
  manufacturer : String
  model : String
  hw : String
  sw : String
deriving DecidableEq, Repr

/-- EXECUTE response statuses (`src/fulfillment/response.rs`,
`execute::CommandStatus`). -/
inductive CommandStatus where
  | Success | Pending | Offline | Exceptions | Error
deriving DecidableEq, Repr

/-- EXECUTE response state fragment (`src/fulfillment/response.rs`,
`execute::CommandState`); `Default` gives all-`None`. -/
structure CommandState where
  lock : Option Bool := none
  guest_network_password : Option String := none
deriving DecidableEq, Repr

/-- Per-command dispatcher outcome (`struct CommandOutput`).  The stale
`src/lib.rs` declares it without `debug_string`; the constructing code in
`src/device.rs` (`Device::execute`) populates a `debug_string` field, so
the model carries it. -/
structure CommandOutput where
  id : String
  status : CommandStatus
  state : Option CommandState
  error : Option SerializableError
  debug_string : Option String
deriving DecidableEq, Repr

/-- EXECUTE response entry (`src/fulfillment/response.rs`,
`execute::Command`). -/
structure ResponseCommand where
  ids : List String
  status : CommandStatus
  states : Option CommandState
  error_code : Option SerializableError
  debug_string : Option String
deriving DecidableEq, Repr

/-- EXECUTE response payload (`src/fulfillment/response.rs`,
`execute::Payload`). -/
structure ExecuteResponsePayload where
  commands : List ResponseCommand
deriving DecidableEq, Repr

/-- QUERY response statuses (`src/fulfillment/response.rs`,
`query::QueryStatus`). -/
inductive QueryStatus where
  | Success | Offline | Exceptions | Error
deriving DecidableEq, Repr

/-- Required part of a per-device QUERY result
(`src/fulfillment/response.rs`, `query::RequiredQueryDeviceState`). -/
structure RequiredQueryDeviceState where
  «on» : Bool
  online : Bool
  status : QueryStatus
  error_code : Option String
deriving DecidableEq, Repr

/-- Per-capability QUERY state fragment (`src/fulfillment/response.rs`,
`query::TraitsQueryDeviceState`; `Default` gives all-`None`).  Field
types follow the capability getters that `Device::query_get_states`
(`src/device.rs`) assigns from; where the stale field declaration in
`response.rs` disagrees with the getter (`current_fan_speed_percent`,
`current_fill_percent`, `open_state`), the getter's type is used, and
the fields that `query_get_states` assigns but the stale struct does not
declare (`current_application`, `timer_remaining_sec`, `timer_paused`,
`current_volume`, `is_muted`, `current_toggle_settings`) are included. -/
structure TraitsQueryDeviceState where
  current_application : Option String := none
  is_armed : Option Bool := none
  current_arm_level : Option String := none
  exit_allowance : Option Int := none
  brightness : Option Int := none
  color : Option Color := none
  current_cooking_mode : Option CookingMode := none
  current_food_preset : Option String := none
  current_food_quantity : Option F32 := none
  current_food_unit : Option SizeUnit := none
  dispense_items : Option (List DispenseItemState) := none
  is_docked : Option Bool := none
  descriptive_capacity_remaining : Option CapacityState := none
  capacity_remaining : Option (List CapacityValue) := none
  capacity_until_full : Option (List CapacityValue) := none
  is_charging : Option Bool := none
  is_plugged_in : Option Bool := none
  current_fan_speed_setting : Option String := none
  current_fan_speed_percent : Option Int := none
  is_filled : Option Bool := none
  current_fill_level : Option String := none
  current_fill_percent : Option Bool := none
  humidity_setpoint_percent : Option Int := none
  humidity_ambient_percent : Option Int := none
  current_input : Option String := none
  active_light_effect : Option LightEffectType := none
  light_effect_end_unix_timestamp_sec : Option Int := none
  is_locked : Option Bool := none
  is_jammed : Option Bool := none
  activity_state : Option ActivityState := none
  playback_state : Option PlaybackState := none
  current_mode_setting : Option (List (String × String)) := none
  network_enabled : Option Bool := none
  network_settings : Option NetworkSettings := none
  guest_network_enabled : Option Bool := none
  guest_network_settings : Option NetworkSettings := none
  num_connected_devices : Option Int := none
  network_usage_mb : Option F32 := none
  network_usage_limit_mb : Option F32 := none
  network_usage_unlimited : Option Bool := none
  last_network_download_speed_test : Option DownloadSpeedTestResult := none
  last_network_upload_speed_test : Option UploadSpeedTestResult := none
  network_speed_test_in_progress : Option Bool := none
  network_profiles_state : Option (List (String × NetworkProfileState)) := none
  «on» : Option Bool := none
  open_percent : Option F32 := none
  open_state : Option OpenState := none
  rotation_degrees : Option F32 := none
  rotation_percent : Option F32 := none
  current_run_cycle : Option (List CurrentRunCycle) := none
  current_total_remaining_time : Option Int := none
  current_cycle_remaining_time : Option Int := none
  current_sensor_state_data : Option (List CurrentSensorState) := none
  last_software_update_unix_timestamp_sec : Option Int := none
  is_running : Option Bool := none
  is_paused : Option Bool := none
  active_zones : Option (List String) := none
  current_status_report : Option (List CurrentStatusReport) := none
  temperature_setpoint_celsius : Option F32 := none
  temperature_ambient_celsius : Option F32 := none
  active_thermostat_mode : Option ThermostatMode := none
  target_temp_reached_estimate_unix_timestamp_sec : Option Int := none
  thermostat_humidity_ambient : Option F32 := none
  thermostat_mode : Option QueryThermostatMode := none
  timer_remaining_sec : Option Int := none
  timer_paused : Option Bool := none
  current_volume : Option Int := none
  is_muted : Option Bool := none
  current_toggle_settings : Option (List (String × Bool)) := none
deriving DecidableEq, Repr

/-- Per-device QUERY result (`src/fulfillment/response.rs`,
`query::QueryDeviceState`). -/
structure QueryDeviceState where
  required : RequiredQueryDeviceState
  traits : Option TraitsQueryDeviceState
deriving DecidableEq, Repr

/-- QUERY response payload (`src/fulfillment/response.rs`,
`query::Payload`); the id-to-state `HashMap` is modelled as an
association list. -/
structure QueryResponsePayload where
  error_code : Option String := none
  debug_string : Option String := none
  devices : List (String × QueryDeviceState)
deriving DecidableEq, Repr

/-- SYNC response device name (`src/fulfillment/response.rs`,
`sync::DeviceName`). -/
structure SyncDeviceName where
  default_names : List String
  name : String
  nicknames : List String
deriving DecidableEq, Repr

/-- SYNC response device info (`src/fulfillment/response.rs`,
`sync::DeviceInfo`). -/
structure SyncDeviceInfo where
  manufacturer : String
  model : String
  hw_version : String
  sw_version : String
deriving DecidableEq, Repr

/-- SYNC response device entry as constructed by `Device::sync`
(`src/lib.rs` lines 221-243).  The struct declared in the current
`response.rs` additionally has an `attributes` field which that stale
constructor never sets; the model matches the constructor. -/
structure SyncDevice where
  id : String
  device_type : String
  traits : List Trait
  name : SyncDeviceName
  will_report_state : Bool
  room_hint : Option String
  device_info : SyncDeviceInfo
deriving DecidableEq, Repr

/-- SYNC response payload (`src/fulfillment/response.rs`,
`sync::Payload`); the `error_code`/`debug_string` fields declared there
are defaulted to `None`, matching the construction in
`Homelander::sync`. -/
structure SyncResponsePayload where
  agent_user_id : String
  devices : List SyncDevice
  error_code : Option String := none
  debug_string : Option String := none
deriving DecidableEq, Repr

/-- Response payload union (`src/fulfillment/response.rs`,
`enum ResponsePayload`). -/
inductive ResponsePayload where
  | Sync (p : SyncResponsePayload)
  | Query (p : QueryResponsePayload)
  | Execute (p : ExecuteResponsePayload)
deriving DecidableEq, Repr

/-- Top-level response (`src/fulfillment/response.rs`,
`struct Response`). -/
structure Response where
  request_id : String
  payload : ResponsePayload
deriving DecidableEq, Repr

/-- Device reference carried by QUERY and EXECUTE request payloads
(`src/fulfillment/request.rs`, `query::Device` and `execute::Device`,
both a single `id` field). -/
structure ReqDevice where
  id : String
deriving DecidableEq, Repr

/-- One EXECUTE command group (`src/fulfillment/request.rs`,
`execute::Command`): target devices times command list. -/
structure ReqCommand where
  devices : List ReqDevice
  execution : List CommandType
deriving Repr

/-- EXECUTE request payload (`src/fulfillment/request.rs`,
`execute::Execute`). -/
structure ExecuteRequestPayload where
  commands : List ReqCommand
deriving Repr

/-- QUERY request payload (`src/fulfillment/request.rs`,
`query::Payload`). -/
structure QueryRequestPayload where
  devices : List ReqDevice
deriving DecidableEq, Repr

/-- Request input union (`src/fulfillment/request.rs`, `enum Input`). -/
inductive Input where
  | Execute (e : ExecuteRequestPayload)
  | Query (q : QueryRequestPayload)
  | Sync
deriving Repr

/-- Top-level request (`src/fulfillment/request.rs`, `struct Request`). -/
structure Request where
  request_id : String
  inputs : List Input
deriving Repr

/-- Identity contract every device implements
(`trait GoogleHomeDevice`).  The declaring file for the current version
of this trait is not under `src/` (`src/traits/mod.rs` is a stale stub);
the methods are reconstructed from their call sites in `src/device.rs`,
`src/lib.rs` and `tests/execute.rs`.  A trait object is modelled as a
record of functions over the device-state type `σ`. -/
structure GoogleHomeDevice (σ : Type) where
  get_device_name : σ → DeviceName
  get_device_info : σ → DeviceInfo
  will_report_state : σ → Bool
  get_room_hint : σ → Option String
  is_online : σ → Bool
  disconnect : σ → σ

/-- App selector capability (`src/traits/app_selector.rs`,
`trait AppSelector`): methods used by QUERY and EXECUTE.  Methods taking
`&mut self` return the possibly mutated state alongside the result. -/
structure AppSelector (σ : Type) where
  get_current_application : σ → Except CombinedDeviceError String
  app_install_key : String → σ → (Except CombinedDeviceError Unit) × σ
  app_install_name : String → σ → (Except CombinedDeviceError Unit) × σ
  app_search_key : String → σ → (Except CombinedDeviceError Unit) × σ
  app_search_name : String → σ → (Except CombinedDeviceError Unit) × σ
  app_select_key : String → σ → (Except CombinedDeviceError Unit) × σ
  app_select_name : String → σ → (Except CombinedDeviceError Unit) × σ

/-- Arm/disarm capability (`src/traits/arm_disarm.rs`,
`trait ArmDisarm`). -/
structure ArmDisarm (σ : Type) where
  is_armed : σ → Except ArmDisarmError Bool
  current_arm_level : σ → Except ArmDisarmError String
  exit_allowance : σ → Except ArmDisarmError Int
  arm : Bool → σ → (Except ArmDisarmError Unit) × σ
  cancel_arm : σ → (Except ArmDisarmError Unit) × σ
  arm_with_level : Bool → String → σ → (Except ArmDisarmError Unit) × σ

/-- Brightness capability (`src/traits/brightness.rs`,
`trait Brightness`). -/
structure Brightness (σ : Type) where
  get_brightness : σ → Except CombinedDeviceError Int
  set_brightness_absolute : Int → σ → (Except CombinedDeviceError Unit) × σ
  set_brightness_relative_percent : Int → σ → (Except CombinedDeviceError Unit) × σ
  set_brightness_relative_weight : Int → σ → (Except CombinedDeviceError Unit) × σ

/-- Camera stream capability (`src/traits/camera_stream.rs`,
`trait CameraStream`). -/
structure CameraStream (σ : Type) where
  get_camera_stream : Bool → List CameraStreamProtocol → σ → (Except CombinedDeviceError CameraStreamDescriptor) × σ

/-- Channel capability (`src/traits/channel.rs`, `trait Channel`). -/
structure Channel (σ : Type) where
  select_channel_by_id : String → Option String → Option String → σ → (Except CombinedDeviceError Unit) × σ
  select_channel_by_number : String → σ → (Except CombinedDeviceError Unit) × σ
  select_channel_relative : Int → σ → (Except CombinedDeviceError Unit) × σ
  return_to_last_channel : σ → (Except CombinedDeviceError Unit) × σ

/-- Color setting capability (`src/traits/color_setting.rs`,
`trait ColorSetting`). -/
structure ColorSetting (σ : Type) where
  get_color : σ → Except CombinedDeviceError Color
  set_color : ColorCommand → σ → (Except CombinedDeviceError Unit) × σ

/-- Cooking capability (`src/traits/cook.rs`, `trait Cook`). -/
structure Cook (σ : Type) where
  get_current_cooking_mode : σ → Except CookError CookingMode
  get_current_food_preset : σ → Except CookError (Option String)
  get_current_food_unit : σ → Except CookError (Option SizeUnit)
  start : CookingConfig → σ → (Except CookError Unit) × σ
  stop : σ → (Except CookError Unit) × σ

/-- Dispense capability (`src/traits/dispense.rs`, `trait Dispense`).
Its mutating-looking operations take `&self` in the source, so they are
modelled as pure. -/
structure Dispense (σ : Type) where
  get_dispense_items_state : σ → Except DispenseError (List DispenseItemState)
  dispense_amount : String → Int → SizeUnit → σ → Except DispenseError Unit
  dispense_preset : String → σ → Except DispenseError Unit
  dispense_default : σ → Except DispenseError Unit

/-- Docking capability (`src/traits/dock.rs`, `trait Dock`). -/
structure Dock (σ : Type) where
  is_docked : σ → Except CombinedDeviceError Bool
  dock : σ → (Except CombinedDeviceError Unit) × σ

/-- Energy storage capability (`src/traits/energy_storage.rs`,
`trait EnergyStorage`). -/
structure EnergyStorage (σ : Type) where
  get_descriptive_capacity_remaining : σ → Except EnergyStorageError CapacityState
  get_capacity_remaining : σ → Except EnergyStorageError (Option (List CapacityValue))
  get_capacity_until_full : σ → Except EnergyStorageError (Option (List CapacityValue))
  is_charging : σ → Except EnergyStorageError (Option Bool)
  is_plugged_in : σ → Except EnergyStorageError (Option Bool)
  charge : Bool → σ → (Except EnergyStorageError Unit) × σ

/-- Fan speed capability (`src/traits/fan_speed.rs`, `trait FanSpeed`).
All its setting operations take `&self` in the source, so they are
modelled as pure. -/
structure FanSpeed (σ : Type) where
  get_current_fan_speed_setting : σ → Except FanSpeedError (Option String)
  get_current_fan_speed_percent : σ → Except FanSpeedError (Option Int)
  set_fan_speed_setting : String → σ → Except FanSpeedError Unit
  set_fan_speed_percent : F32 → σ → Except FanSpeedError Unit
  set_fan_speed_relative_weight : Int → σ → Except FanSpeedError Unit
  set_fan_speed_relative_percent : F32 → σ → Except FanSpeedError Unit
  set_fan_reverse : σ → Except FanSpeedError Unit

/-- Fill capability (`src/traits/fill.rs`, `trait Fill`). -/
structure Fill (σ : Type) where
  is_filled : σ → Except CombinedDeviceError Bool
  get_current_fill_level : σ → Except CombinedDeviceError (Option String)
  get_current_fill_percent : σ → Except CombinedDeviceError (Option Bool)
  fill : Bool → σ → (Except CombinedDeviceError Unit) × σ
  fill_to_level : String → σ → (Except CombinedDeviceError Unit) × σ
  fill_to_percent : F32 → σ → (Except CombinedDeviceError Unit) × σ

/-- Humidity setting capability (`src/traits/humidity_setting.rs`,
`trait HumiditySetting`): getters used by QUERY. -/
structure HumiditySetting (σ : Type) where
  get_current_humidity_set_point_range : σ → Except CombinedDeviceError Int
  get_current_humidity_ambient_percent : σ → Except CombinedDeviceError Int

/-- Input selector capability (`src/traits/input_selector.rs`,
`trait InputSelector`). -/
structure InputSelector (σ : Type) where
  get_current_input : σ → Except InputSelectorError String
  set_input : String → σ → (Except InputSelectorError Unit) × σ
  set_next_input : σ → (Except InputSelectorError Unit) × σ
  set_previous_input : σ → (Except InputSelectorError Unit) × σ

/-- Light effects capability (`src/traits/light_effects.rs`,
`trait LightEffects`).  The misspelled getter name is the source's. -/
structure LightEffects (σ : Type) where
  get_active_light_effect : σ → Except CombinedDeviceError (Option LightEffectType)
  get_light_efccect_end_unix_timestamp_sec : σ → Except CombinedDeviceError (Option Int)
  set_color_loop : Option Int → σ → (Except CombinedDeviceError Unit) × σ
  set_sleep : Option Int → σ → (Except CombinedDeviceError Unit) × σ
  stop_effect : σ → (Except CombinedDeviceError Unit) × σ
  set_wake : Option Int → σ → (Except CombinedDeviceError Unit) × σ

/-- Locator capability (`src/traits/locator.rs`, `trait Locator`). -/
structure Locator (σ : Type) where
  locate : Option Bool → Option Language → σ → (Except CombinedDeviceError Unit) × σ

/-- Lock/unlock capability (`src/traits/lock_unlock.rs`,
`trait LockUnlock`). -/
structure LockUnlock (σ : Type) where
  is_locked : σ → Except CombinedDeviceError Bool
  is_jammed : σ → Except CombinedDeviceError Bool
  set_locked : Bool → σ → (Except LockUnlockError Unit) × σ

/-- Media state capability (`src/traits/media_state.rs`,
`trait MediaState`). -/
structure MediaState (σ : Type) where
  get_activity_state : σ → Except CombinedDeviceError (Option ActivityState)
  get_playback_state : σ → Except CombinedDeviceError (Option PlaybackState)

/-- Modes capability (`src/traits/modes.rs`, `trait Modes`).
`update_mode` takes `&self` in the source, so it is modelled as pure. -/
structure Modes (σ : Type) where
  get_current_mode_settings : σ → Except CombinedDeviceError (List (String × String))
  update_mode : String → String → σ → Except CombinedDeviceError Unit

/-- Network control capability (`src/traits/network_control.rs`,
`trait NetworkControl`). -/
structure NetworkControl (σ : Type) where
  is_network_enabled : σ → Except NetworkControlError Bool
  get_network_settings : σ → Except NetworkControlError NetworkSettings
  is_guest_network_enabled : σ → Except NetworkControlError Bool
  get_guest_network_settings : σ → Except NetworkControlError NetworkSettings
  get_num_connected_devices : σ → Except NetworkControlError Int
  get_network_usage_mb : σ → Except NetworkControlError F32
  is_network_usage_unlimited : σ → Except NetworkControlError Bool
  get_last_network_download_speed_test : σ → Except NetworkControlError DownloadSpeedTestResult
  get_last_network_upload_speed_test : σ → Except NetworkControlError UploadSpeedTestResult
  is_network_speed_test_in_progress : σ → Except NetworkControlError (Option Bool)
  get_network_profiles_state : σ → Except NetworkControlError (List (String × NetworkProfileState))
  set_guest_network_enabled : Bool → σ → (Except NetworkControlError Unit) × σ
  set_network_profile_enabled : String → Bool → σ → (Except NetworkControlError Unit) × σ
  get_guest_network_password : σ → Except NetworkControlError String
  test_network_speed : Bool → Bool → σ → (Except NetworkControlError Unit) × σ

/-- On/off capability (`src/traits/on_off.rs`, `trait OnOff`). -/
structure OnOff (σ : Type) where
  is_on : σ → Except CombinedDeviceError Bool
  set_on : Bool → σ → (Except CombinedDeviceError Unit) × σ

/-- Open/close capability (`src/traits/open_close.rs`,
`trait OpenClose`). -/
structure OpenClose (σ : Type) where
  get_open_percent : σ → Except OpenCloseError (Option F32)
  get_open_state : σ → Except OpenCloseError (Option OpenState)
  set_open : F32 → Option OpenDirection → σ → (Except OpenCloseError Unit) × σ
  set_open_relative : F32 → Option OpenDirection → σ → (Except OpenCloseError Unit) × σ

/-- Reboot capability (`src/traits/reboot.rs`, `trait Reboot`). -/
structure Reboot (σ : Type) where
  reboot : σ → (Except CombinedDeviceError Unit) × σ

/-- Rotation capability (`src/traits/rotation.rs`, `trait Rotation`). -/
structure Rotation (σ : Type) where
  get_rotation_degrees : σ → Except CombinedDeviceError F32
  get_rotation_percent : σ → Except CombinedDeviceError F32
  set_rotation_degrees : F32 → σ → (Except CombinedDeviceError Unit) × σ
  set_rotation_percent : F32 → σ → (Except CombinedDeviceError Unit) × σ

/-- Run cycle capability (`src/traits/run_cycle.rs`, `trait RunCycle`). -/
structure RunCycle (σ : Type) where
  get_current_run_cycle : σ → Except CombinedDeviceError (List CurrentRunCycle)
  get_current_total_remaining_time : σ → Except CombinedDeviceError Int
  get_current_cycle_remaining_time : σ → Except CombinedDeviceError Int

/-- Sensor state capability (`src/traits/sensor_state.rs`,
`trait SensorState`). -/
structure SensorState (σ : Type) where
  get_current_sensor_states : σ → Except CombinedDeviceError (List CurrentSensorState)

/-- Scene capability (`src/traits/scene.rs`, `trait Scene`). -/
structure Scene (σ : Type) where
  activate : σ → (Except CombinedDeviceError Unit) × σ
  deactivate : σ → (Except CombinedDeviceError Unit) × σ

/-- Software update capability (`src/traits/software_update.rs`,
`trait SoftwareUpdate`). -/
structure SoftwareUpdate (σ : Type) where
  get_last_software_update_unix_timestamp_sec : σ → Except CombinedDeviceError Int
  perform_update : σ → (Except CombinedDeviceError Unit) × σ

/-- Start/stop capability (`src/traits/start_stop.rs`,
`trait StartStop`). -/
structure StartStop (σ : Type) where
  is_running : σ → Except CombinedDeviceError Bool
  is_paused : σ → Except CombinedDeviceError (Option Bool)
  get_active_zones : σ → Except CombinedDeviceError (Option (List String))
  start_stop : Bool → Option (List String) → σ → (Except CombinedDeviceError Unit) × σ
  pause_unpause : Bool → σ → (Except CombinedDeviceError Unit) × σ

/-- Status report capability (`src/traits/status_report.rs`,
`trait StatusReport`). -/
structure StatusReport (σ : Type) where
  get_current_status_report : σ → Except CombinedDeviceError (List CurrentStatusReport)

/-- Temperature control capability
(`src/traits/temperature_control.rs`, `trait TemperatureControl`).  The
misspelled ambient getter name is the source's. -/
structure TemperatureControl (σ : Type) where
  get_temperature_setpoint_celsius : σ → Except CombinedDeviceError F32
  get_temperatuer_ambient_celsius : σ → Except CombinedDeviceError F32
  set_temperature : F32 → σ → (Except CombinedDeviceError Unit) × σ

/-- Temperature setting capability
(`src/traits/temperature_setting.rs`, `trait TemperatureSetting`). -/
structure TemperatureSetting (σ : Type) where
  get_active_thermostat_mode : σ → Except CombinedDeviceError ThermostatMode
  get_target_temp_reached_estimate_unix_timestamp_sec : σ → Except CombinedDeviceError (Option Int)
  get_thermostat_humidity_ambient : σ → Except CombinedDeviceError (Option F32)
  get_thermostat_mode : σ → Except CombinedDeviceError QueryThermostatMode
  set_temperature_setpoint : F32 → σ → (Except CombinedDeviceError Unit) × σ
  set_temperature_set_range : F32 → F32 → σ → (Except CombinedDeviceError Unit) × σ
  set_thermostat_mode : ThermostatMode → σ → (Except CombinedDeviceError Unit) × σ
  set_temperature_relative_degree : F32 → σ → (Except CombinedDeviceError Unit) × σ
  set_temperature_relative_weight : F32 → σ → (Except CombinedDeviceError Unit) × σ

/-- Timer capability (`src/traits/timer.rs`, `trait Timer`). -/
structure Timer (σ : Type) where
  get_timer_remaining_sec : σ → Except CombinedDeviceError (Option Int)
  is_timer_paused : σ → Except CombinedDeviceError (Option Bool)
  start_timer : Int → σ → (Except CombinedDeviceError Unit) × σ
  adjust_timer : Int → σ → (Except CombinedDeviceError Unit) × σ
  pause_timer : σ → (Except CombinedDeviceError Unit) × σ
  resume_timer : σ → (Except CombinedDeviceError Unit) × σ
  cancel_timer : σ → (Except CombinedDeviceError Unit) × σ

/-- Toggles capability (`src/traits/toggles.rs`, `trait Toggles`). -/
structure Toggles (σ : Type) where
  get_current_toggle_settings : σ → Except CombinedDeviceError (List (String × Bool))
  set_toggle : String → Bool → σ → (Except CombinedDeviceError Unit) × σ

/-- Transport control capability (`src/traits/transport_control.rs`,
`trait TransportControl`). -/
structure TransportControl (σ : Type) where
  media_stop : σ → (Except CombinedDeviceError Unit) × σ
  media_next : σ → (Except CombinedDeviceError Unit) × σ
  media_previous : σ → (Except CombinedDeviceError Unit) × σ
  media_pause : σ → (Except CombinedDeviceError Unit) × σ
  media_resume : σ → (Except CombinedDeviceError Unit) × σ
  media_seek_relative : Int → σ → (Except CombinedDeviceError Unit) × σ
  media_seek_to_position : Int → σ → (Except CombinedDeviceError Unit) × σ
  media_repeat_mode : Bool → Bool → σ → (Except CombinedDeviceError Unit) × σ
  media_shuffle : σ → (Except CombinedDeviceError Unit) × σ
  media_closed_captioning_on : String → String → σ → (Except CombinedDeviceError Unit) × σ
  media_closed_captioning_off : σ → (Except CombinedDeviceError Unit) × σ

/-- Volume capability (`src/traits/volume.rs`, `trait Volume`). -/
structure Volume (σ : Type) where
  get_current_volume : σ → Except CombinedDeviceError (Option Int)
  is_muted : σ → Except CombinedDeviceError (Option Bool)
  mute : Bool → σ → (Except CombinedDeviceError Unit) × σ
  set_volume : Int → σ → (Except CombinedDeviceError Unit) × σ
  set_volume_relative : Int → σ → (Except CombinedDeviceError Unit) × σ

/-- Full method table of one concrete device type `T`.  In the source
every capability handle is an `Rc<RefCell<T>>` clone of the same inner
instance; the model keeps one state value per device and one record of
all the capability methods of `T`, which every populated slot aliases. -/
structure DeviceImpl (σ : Type) where
  google_home_device : GoogleHomeDevice σ
  app_selector : AppSelector σ
  arm_disarm : ArmDisarm σ
  brightness : Brightness σ
  camera_stream : CameraStream σ
  channel : Channel σ
  color_setting : ColorSetting σ
  cook : Cook σ
  dispense : Dispense σ
  dock : Dock σ
  energy_storage : EnergyStorage σ
  fan_speed : FanSpeed σ
  fill : Fill σ
  humidity_setting : HumiditySetting σ
  input_selector : InputSelector σ
  light_effects : LightEffects σ
  locator : Locator σ
  lock_unlock : LockUnlock σ
  media_state : MediaState σ
  modes : Modes σ
  network_control : NetworkControl σ
  on_off : OnOff σ
  open_close : OpenClose σ
  reboot : Reboot σ
  rotation : Rotation σ
  run_cycle : RunCycle σ
  sensor_state : SensorState σ
  scene : Scene σ
  software_update : SoftwareUpdate σ
  start_stop : StartStop σ
  status_report : StatusReport σ
  temperature_control : TemperatureControl σ
  temperature_setting : TemperatureSetting σ
  timer : Timer σ
  toggles : Toggles σ
  transport_control : TransportControl σ
  volume : Volume σ

/-- Capability slot table (`src/device.rs`, `struct DeviceTraits`).  In
the source each field is an `Option` of a capability handle aliasing the
device's single inner instance, so a populated slot is modelled by a
`Bool` flag (the handle itself is the device's `DeviceImpl`).  `Default`
leaves every slot empty. -/
structure DeviceTraits where
  app_selector : Bool := false
  arm_disarm : Bool := false
  brightness : Bool := false
  camera_stream : Bool := false
  channel : Bool := false
  color_setting : Bool := false
  cook : Bool := false
  dispense : Bool := false
  dock : Bool := false
  energy_storage : Bool := false
  fan_speed : Bool := false
  fill : Bool := false
  humidity_setting : Bool := false
  input_selector : Bool := false
  light_effects : Bool := false
  locator : Bool := false
  lock_unlock : Bool := false
  media_state : Bool := false
  modes : Bool := false
  network_control : Bool := false
  object_detection : Bool := false
  on_off : Bool := false
  open_close : Bool := false
  reboot : Bool := false
  rotation : Bool := false
  run_cycle : Bool := false
  sensor_state : Bool := false
  scene : Bool := false
  software_update : Bool := false
  start_stop : Bool := false
  status_report : Bool := false
  temperature_control : Bool := false
  temperature_setting : Bool := false
  timer : Bool := false
  toggles : Bool := false
  transport_control : Bool := false
  volume : Bool := false
deriving DecidableEq, Repr

/-- Whether the slot matching a capability tag is populated. -/
def DeviceTraits.has (dt : DeviceTraits) : Trait → Bool
  | Trait.AppSelector => dt.app_selector
  | Trait.ArmDisarm => dt.arm_disarm
  | Trait.Brightness => dt.brightness
  | Trait.CameraStream => dt.camera_stream
  | Trait.Channel => dt.channel
  | Trait.ColorSetting => dt.color_setting
  | Trait.Cook => dt.cook
  | Trait.Dispense => dt.dispense
  | Trait.Dock => dt.dock
  | Trait.EnergyStorage => dt.energy_storage
  | Trait.FanSpeed => dt.fan_speed
  | Trait.Fill => dt.fill
  | Trait.HumiditySetting => dt.humidity_setting
  | Trait.InputSelector => dt.input_selector
  | Trait.LightEffects => dt.light_effects
  | Trait.Locator => dt.locator
  | Trait.LockUnlock => dt.lock_unlock
  | Trait.MediaState => dt.media_state
  | Trait.Modes => dt.modes
  | Trait.NetworkControl => dt.network_control
  | Trait.ObjectDetection => dt.object_detection
  | Trait.OnOff => dt.on_off
  | Trait.OpenClose => dt.open_close
  | Trait.Reboot => dt.reboot
  | Trait.Rotation => dt.rotation
  | Trait.RunCycle => dt.run_cycle
  | Trait.Scene => dt.scene
  | Trait.SensorState => dt.sensor_state
  | Trait.SoftwareUpdate => dt.software_update
  | Trait.StartStop => dt.start_stop
  | Trait.StatusReport => dt.status_report
  | Trait.TemperatureControl => dt.temperature_control
  | Trait.TemperatureSetting => dt.temperature_setting
  | Trait.Timer => dt.timer
  | Trait.Toggles => dt.toggles
  | Trait.TransportControl => dt.transport_control
  | Trait.Volume => dt.volume

/-- A registered device (`src/device.rs`, `struct Device<T>`): identity,
type, slot table, ordered active-capability list, and the shared inner
instance (split into its state and its method table). -/
structure Device (σ : Type) where
  id : String
  device_type : DeviceType
  device_traits : DeviceTraits
  traits : List Trait
  inner : σ
  impl : DeviceImpl σ

/-- Constructor `Device::new` (`src/device.rs` lines 77-85): assigns the
identity, leaves every capability slot empty and the active-trait list
empty. -/
def Device.new {σ : Type} (device : σ) (impl : DeviceImpl σ) (device_type : DeviceType) (id : String) : Device σ :=
  { id := id
    device_type := device_type
    device_traits := {}
    traits := []
    inner := device
    impl := impl }

/-- Registration method `Device::set_app_selector` (`src/device.rs`):
populates the matching slot with a clone of the inner handle and appends
the matching tag to the active-trait list. -/
def Device.set_app_selector {σ : Type} (d : Device σ) : Device σ :=
  { d with device_traits := { d.device_traits with app_selector := true }
           traits := d.traits ++ [Trait.AppSelector] }

/-- Registration method `Device::set_arm_disarm` (`src/device.rs`). -/
def Device.set_arm_disarm {σ : Type} (d : Device σ) : Device σ :=
  { d with device_traits := { d.device_traits with arm_disarm := true }
           traits := d.traits ++ [Trait.ArmDisarm] }

/-- Registration method `Device::set_brightness` (`src/device.rs`). -/
def Device.set_brightness {σ : Type} (d : Device σ) : Device σ :=
  { d with device_traits := { d.device_traits with brightness := true }
           traits := d.traits ++ [Trait.Brightness] }

/-- Registration method `Device::set_camera_stream` (`src/device.rs`). -/
def Device.set_camera_stream {σ : Type} (d : Device σ) : Device σ :=
  { d with device_traits := { d.device_traits with camera_stream := true }
           traits := d.traits ++ [Trait.CameraStream] }

/-- Registration method `Device::set_channel` (`src/device.rs`). -/
def Device.set_channel {σ : Type} (d : Device σ) : Device σ :=
  { d with device_traits := { d.device_traits with channel := true }
           traits := d.traits ++ [Trait.Channel] }

/-- Registration method `Device::set_color_setting` (`src/device.rs`). -/
def Device.set_color_setting {σ : Type} (d : Device σ) : Device σ :=
  { d with device_traits := { d.device_traits with color_setting := true }
           traits := d.traits ++ [Trait.ColorSetting] }

/-- Registration method `Device::set_cook` (`src/device.rs`). -/
def Device.set_cook {σ : Type} (d : Device σ) : Device σ :=
  { d with device_traits := { d.device_traits with cook := true }
           traits := d.traits ++ [Trait.Cook] }

/-- Registration method `Device::set_dispense` (`src/device.rs`). -/
def Device.set_dispense {σ : Type} (d : Device σ) : Device σ :=
  { d with device_traits := { d.device_traits with dispense := true }
           traits := d.traits ++ [Trait.Dispense] }

/-- Registration method `Device::set_dock` (`src/device.rs`). -/
def Device.set_dock {σ : Type} (d : Device σ) : Device σ :=
  { d with device_traits := { d.device_traits with dock := true }
           traits := d.traits ++ [Trait.Dock] }

/-- Registration method `Device::set_energy_storage` (`src/device.rs`). -/
def Device.set_energy_storage {σ : Type} (d : Device σ) : Device σ :=
  { d with device_traits := { d.device_traits with energy_storage := true }
           traits := d.traits ++ [Trait.EnergyStorage] }

/-- Registration method `Device::set_fan_speed` (`src/device.rs`). -/
def Device.set_fan_speed {σ : Type} (d : Device σ) : Device σ :=
  { d with device_traits := { d.device_traits with fan_speed := true }
           traits := d.traits ++ [Trait.FanSpeed] }

/-- Registration method `Device::set_input_selector` (`src/device.rs`). -/
def Device.set_input_selector {σ : Type} (d : Device σ) : Device σ :=
  { d with device_traits := { d.device_traits with input_selector := true }
           traits := d.traits ++ [Trait.InputSelector] }

/-- Registration method `Device::set_light_effects` (`src/device.rs`). -/
def Device.set_light_effects {σ : Type} (d : Device σ) : Device σ :=
  { d with device_traits := { d.device_traits with light_effects := true }
           traits := d.traits ++ [Trait.LightEffects] }

/-- Registration method `Device::set_locator` (`src/device.rs`). -/
def Device.set_locator {σ : Type} (d : Device σ) : Device σ :=
  { d with device_traits := { d.device_traits with locator := true }
           traits := d.traits ++ [Trait.Locator] }

/-- Registration method `Device::set_lock_unlock` (`src/device.rs`). -/
def Device.set_lock_unlock {σ : Type} (d : Device σ) : Device σ :=
  { d with device_traits := { d.device_traits with lock_unlock := true }
           traits := d.traits ++ [Trait.LockUnlock] }

/-- Registration method `Device::set_media_state` (`src/device.rs`). -/
def Device.set_media_state {σ : Type} (d : Device σ) : Device σ :=
  { d with device_traits := { d.device_traits with media_state := true }
           traits := d.traits ++ [Trait.MediaState] }

/-- Registration method `Device::set_modes` (`src/device.rs`). -/
def Device.set_modes {σ : Type} (d : Device σ) : Device σ :=
  { d with device_traits := { d.device_traits with modes := true }
           traits := d.traits ++ [Trait.Modes] }

/-- Registration method `Device::set_network_control` (`src/device.rs`). -/
def Device.set_network_control {σ : Type} (d : Device σ) : Device σ :=
  { d with device_traits := { d.device_traits with network_control := true }
           traits := d.traits ++ [Trait.NetworkControl] }

/-- Registration method `Device::set_on_off` (`src/device.rs` lines
1415-1422). -/
def Device.set_on_off {σ : Type} (d : Device σ) : Device σ :=
  { d with device_traits := { d.device_traits with on_off := true }
           traits := d.traits ++ [Trait.OnOff] }

/-- Registration method `Device::set_open_close` (`src/device.rs`). -/
def Device.set_open_close {σ : Type} (d : Device σ) : Device σ :=
  { d with device_traits := { d.device_traits with open_close := true }
           traits := d.traits ++ [Trait.OpenClose] }

/-- Registration method `Device::set_reboot` (`src/device.rs`). -/
def Device.set_reboot {σ : Type} (d : Device σ) : Device σ :=
  { d with device_traits := { d.device_traits with reboot := true }
           traits := d.traits ++ [Trait.Reboot] }

/-- Registration method `Device::set_rotation` (`src/device.rs`). -/
def Device.set_rotation {σ : Type} (d : Device σ) : Device σ :=
  { d with device_traits := { d.device_traits with rotation := true }
           traits := d.traits ++ [Trait.Rotation] }

/-- Registration method `Device::set_run_cycle` (`src/device.rs`). -/
def Device.set_run_cycle {σ : Type} (d : Device σ) : Device σ :=
  { d with device_traits := { d.device_traits with run_cycle := true }
           traits := d.traits ++ [Trait.RunCycle] }

/-- Registration method `Device::set_scene` (`src/device.rs`). -/
def Device.set_scene {σ : Type} (d : Device σ) : Device σ :=
  { d with device_traits := { d.device_traits with scene := true }
           traits := d.traits ++ [Trait.Scene] }

/-- Registration method `Device::set_sensor_state` (`src/device.rs`). -/
def Device.set_sensor_state {σ : Type} (d : Device σ) : Device σ :=
  { d with device_traits := { d.device_traits with sensor_state := true }
           traits := d.traits ++ [Trait.SensorState] }

/-- Registration method `Device::set_software_update` (`src/device.rs`). -/
def Device.set_software_update {σ : Type} (d : Device σ) : Device σ :=
  { d with device_traits := { d.device_traits with software_update := true }
           traits := d.traits ++ [Trait.SoftwareUpdate] }

/-- Registration method `Device::set_start_stop` (`src/device.rs`). -/
def Device.set_start_stop {σ : Type} (d : Device σ) : Device σ :=
  { d with device_traits := { d.device_traits with start_stop := true }
           traits := d.traits ++ [Trait.StartStop] }

/-- Registration method `Device::set_status_report` (`src/device.rs`). -/
def Device.set_status_report {σ : Type} (d : Device σ) : Device σ :=
  { d with device_traits := { d.device_traits with status_report := true }
           traits := d.traits ++ [Trait.StatusReport] }

/-- Registration method `Device::set_temperature_control`
(`src/device.rs`). -/
def Device.set_temperature_control {σ : Type} (d : Device σ) : Device σ :=
  { d with device_traits := { d.device_traits with temperature_control := true }
           traits := d.traits ++ [Trait.TemperatureControl] }

/-- Registration method `Device::set_temperature_setting`
(`src/device.rs`). -/
def Device.set_temperature_setting {σ : Type} (d : Device σ) : Device σ :=
  { d with device_traits := { d.device_traits with temperature_setting := true }
           traits := d.traits ++ [Trait.TemperatureSetting] }

/-- Registration method `Device::set_timer` (`src/device.rs`). -/
def Device.set_timer {σ : Type} (d : Device σ) : Device σ :=
  { d with device_traits := { d.device_traits with timer := true }
           traits := d.traits ++ [Trait.Timer] }

/-- Registration method `Device::set_toggles` (`src/device.rs`). -/
def Device.set_toggles {σ : Type} (d : Device σ) : Device σ :=
  { d with device_traits := { d.device_traits with toggles := true }
           traits := d.traits ++ [Trait.Toggles] }

/-- Registration method `Device::set_transport_control`
(`src/device.rs`). -/
def Device.set_transport_control {σ : Type} (d : Device σ) : Device σ :=
  { d with device_traits := { d.device_traits with transport_control := true }
           traits := d.traits ++ [Trait.TransportControl] }

/-- Registration method `Device::set_volume` (`src/device.rs`). -/
def Device.set_volume {σ : Type} (d : Device σ) : Device σ :=
  { d with device_traits := { d.device_traits with volume := true }
           traits := d.traits ++ [Trait.Volume] }

/-- Conversion of a typed capability error at a `?` site whose caller
returns `Box<dyn Error>`: the boxed error is observed only through its
display string. -/
def errToString {E α : Type} (disp : E → String) : Except E α → Except String α
  | Except.error e => Except.error (disp e)
  | Except.ok a => Except.ok a

/-- State collector for QUERY (`Device::query_get_states`,
`src/device.rs` lines 139-306): visits the populated capability slots in
the source's order, invoking each slot's state getters; the first getter
error aborts the collection with that error (as a display string, the
observable content of the returned `Box<dyn Error>`). -/
def Device.query_get_states {σ : Type} (dev : Device σ) : Except String TraitsQueryDeviceState := do
  let s := dev.inner
  let impl := dev.impl
  let dt := dev.device_traits
  let mut states : TraitsQueryDeviceState := {}
  if dt.app_selector then
    states := { states with current_application := some (← errToString CombinedDeviceError.display (impl.app_selector.get_current_application s)) }
  if dt.arm_disarm then
    states := { states with is_armed := some (← errToString ArmDisarmError.display (impl.arm_disarm.is_armed s)) }
    states := { states with current_arm_level := some (← errToString ArmDisarmError.display (impl.arm_disarm.current_arm_level s)) }
    states := { states with exit_allowance := some (← errToString ArmDisarmError.display (impl.arm_disarm.exit_allowance s)) }
  if dt.brightness then
    states := { states with brightness := some (← errToString CombinedDeviceError.display (impl.brightness.get_brightness s)) }
  if dt.color_setting then
    states := { states with color := some (← errToString CombinedDeviceError.display (impl.color_setting.get_color s)) }
  if dt.cook then
    states := { states with current_cooking_mode := some (← errToString CookError.display (impl.cook.get_current_cooking_mode s)) }
    states := { states with current_food_preset := (← errToString CookError.display (impl.cook.get_current_food_preset s)) }
    states := { states with current_food_unit := (← errToString CookError.display (impl.cook.get_current_food_unit s)) }
  if dt.dispense then
    states := { states with dispense_items := some (← errToString DispenseError.display (impl.dispense.get_dispense_items_state s)) }
  if dt.dock then
    states := { states with is_docked := some (← errToString CombinedDeviceError.display (impl.dock.is_docked s)) }
  if dt.energy_storage then
    states := { states with descriptive_capacity_remaining := some (← errToString EnergyStorageError.display (impl.energy_storage.get_descriptive_capacity_remaining s)) }
    states := { states with capacity_remaining := (← errToString EnergyStorageError.display (impl.energy_storage.get_capacity_remaining s)) }
    states := { states with capacity_until_full := (← errToString EnergyStorageError.display (impl.energy_storage.get_capacity_until_full s)) }
    states := { states with is_charging := (← errToString EnergyStorageError.display (impl.energy_storage.is_charging s)) }
    states := { states with is_plugged_in := (← errToString EnergyStorageError.display (impl.energy_storage.is_plugged_in s)) }
  if dt.fan_speed then
    states := { states with current_fan_speed_setting := (← errToString FanSpeedError.display (impl.fan_speed.get_current_fan_speed_setting s)) }
    states := { states with current_fan_speed_percent := (← errToString FanSpeedError.display (impl.fan_speed.get_current_fan_speed_percent s)) }
  if dt.fill then
    states := { states with is_filled := some (← errToString CombinedDeviceError.display (impl.fill.is_filled s)) }
    states := { states with current_fill_level := (← errToString CombinedDeviceError.display (impl.fill.get_current_fill_level s)) }
    states := { states with current_fill_percent := (← errToString CombinedDeviceError.display (impl.fill.get_current_fill_percent s)) }
  if dt.humidity_setting then
    states := { states with humidity_setpoint_percent := some (← errToString CombinedDeviceError.display (impl.humidity_setting.get_current_humidity_set_point_range s)) }
    states := { states with humidity_ambient_percent := some (← errToString CombinedDeviceError.display (impl.humidity_setting.get_current_humidity_ambient_percent s)) }
  if dt.input_selector then
    states := { states with current_input := some (← errToString InputSelectorError.display (impl.input_selector.get_current_input s)) }
  if dt.light_effects then
    states := { states with active_light_effect := (← errToString CombinedDeviceError.display (impl.light_effects.get_active_light_effect s)) }
    states := { states with light_effect_end_unix_timestamp_sec := (← errToString CombinedDeviceError.display (impl.light_effects.get_light_efccect_end_unix_timestamp_sec s)) }
  if dt.lock_unlock then
    states := { states with is_locked := some (← errToString CombinedDeviceError.display (impl.lock_unlock.is_locked s)) }
    states := { states with is_jammed := some (← errToString CombinedDeviceError.display (impl.lock_unlock.is_jammed s)) }
  if dt.media_state then
    states := { states with activity_state := (← errToString CombinedDeviceError.display (impl.media_state.get_activity_state s)) }
    states := { states with playback_state := (← errToString CombinedDeviceError.display (impl.media_state.get_playback_state s)) }
  if dt.modes then
    states := { states with current_mode_setting := some (← errToString CombinedDeviceError.display (impl.modes.get_current_mode_settings s)) }
  if dt.network_control then
    states := { states with network_enabled := some (← errToString NetworkControlError.display (impl.network_control.is_network_enabled s)) }
    states := { states with network_settings := some (← errToString NetworkControlError.display (impl.network_control.get_network_settings s)) }
    states := { states with guest_network_enabled := some (← errToString NetworkControlError.display (impl.network_control.is_guest_network_enabled s)) }
    states := { states with guest_network_settings := some (← errToString NetworkControlError.display (impl.network_control.get_guest_network_settings s)) }
    states := { states with num_connected_devices := some (← errToString NetworkControlError.display (impl.network_control.get_num_connected_devices s)) }
    states := { states with network_usage_mb := some (← errToString NetworkControlError.display (impl.network_control.get_network_usage_mb s)) }
    states := { states with network_usage_unlimited := some (← errToString NetworkControlError.display (impl.network_control.is_network_usage_unlimited s)) }
    states := { states with last_network_download_speed_test := some (← errToString NetworkControlError.display (impl.network_control.get_last_network_download_speed_test s)) }
    states := { states with last_network_upload_speed_test := some (← errToString NetworkControlError.display (impl.network_control.get_last_network_upload_speed_test s)) }
    states := { states with network_speed_test_in_progress := (← errToString NetworkControlError.display (impl.network_control.is_network_speed_test_in_progress s)) }
    states := { states with network_profiles_state := some (← errToString NetworkControlError.display (impl.network_control.get_network_profiles_state s)) }
  if dt.on_off then
    states := { states with «on» := some (← errToString CombinedDeviceError.display (impl.on_off.is_on s)) }
  if dt.open_close then
    states := { states with open_percent := (← errToString OpenCloseError.display (impl.open_close.get_open_percent s)) }
    states := { states with open_state := (← errToString OpenCloseError.display (impl.open_close.get_open_state s)) }
  if dt.rotation then
    states := { states with rotation_degrees := some (← errToString CombinedDeviceError.display (impl.rotation.get_rotation_degrees s)) }
    states := { states with rotation_percent := some (← errToString CombinedDeviceError.display (impl.rotation.get_rotation_percent s)) }
  if dt.run_cycle then
    states := { states with current_run_cycle := some (← errToString CombinedDeviceError.display (impl.run_cycle.get_current_run_cycle s)) }
    states := { states with current_total_remaining_time := some (← errToString CombinedDeviceError.display (impl.run_cycle.get_current_total_remaining_time s)) }
    states := { states with current_cycle_remaining_time := some (← errToString CombinedDeviceError.display (impl.run_cycle.get_current_cycle_remaining_time s)) }
  if dt.sensor_state then
    states := { states with current_sensor_state_data := some (← errToString CombinedDeviceError.display (impl.sensor_state.get_current_sensor_states s)) }
  if dt.software_update then
    states := { states with last_software_update_unix_timestamp_sec := some (← errToString CombinedDeviceError.display (impl.software_update.get_last_software_update_unix_timestamp_sec s)) }
  if dt.start_stop then
    states := { states with is_running := some (← errToString CombinedDeviceError.display (impl.start_stop.is_running s)) }
    states := { states with is_paused := (← errToString CombinedDeviceError.display (impl.start_stop.is_paused s)) }
    states := { states with active_zones := (← errToString CombinedDeviceError.display (impl.start_stop.get_active_zones s)) }
  if dt.status_report then
    states := { states with current_status_report := some (← errToString CombinedDeviceError.display (impl.status_report.get_current_status_report s)) }
  if dt.temperature_control then
    states := { states with temperature_setpoint_celsius := some (← errToString CombinedDeviceError.display (impl.temperature_control.get_temperature_setpoint_celsius s)) }
    states := { states with temperature_ambient_celsius := some (← errToString CombinedDeviceError.display (impl.temperature_control.get_temperatuer_ambient_celsius s)) }
  if dt.temperature_setting then
    states := { states with active_thermostat_mode := some (← errToString CombinedDeviceError.display (impl.temperature_setting.get_active_thermostat_mode s)) }
    states := { states with target_temp_reached_estimate_unix_timestamp_sec := (← errToString CombinedDeviceError.display (impl.temperature_setting.get_target_temp_reached_estimate_unix_timestamp_sec s)) }
    states := { states with thermostat_humidity_ambient := (← errToString CombinedDeviceError.display (impl.temperature_setting.get_thermostat_humidity_ambient s)) }
    states := { states with thermostat_mode := some (← errToString CombinedDeviceError.display (impl.temperature_setting.get_thermostat_mode s)) }
  if dt.timer then
    states := { states with timer_remaining_sec := some (Option.getD (← errToString CombinedDeviceError.display (impl.timer.get_timer_remaining_sec s)) (-1)) }
    states := { states with timer_paused := (← errToString CombinedDeviceError.display (impl.timer.is_timer_paused s)) }
  if dt.volume then
    states := { states with current_volume := (← errToString CombinedDeviceError.display (impl.volume.get_current_volume s)) }
    states := { states with is_muted := (← errToString CombinedDeviceError.display (impl.volume.is_muted s)) }
  if dt.toggles then
    states := { states with current_toggle_settings := some (← errToString CombinedDeviceError.display (impl.toggles.get_current_toggle_settings s)) }
  return states

/-- QUERY collector for one device (`Device::query`, `src/device.rs`
lines 95-135): first runs the per-capability state getters; a getter
error yields `status = ERROR` with the error text as `error_code` and no
state fragment; otherwise an offline device yields `status = OFFLINE`
(`on = true`, `online = false`); otherwise `status = SUCCESS` with the
collected state fragment. -/
def Device.query {σ : Type} (dev : Device σ) : QueryDeviceState :=
  match dev.query_get_states with
  | Except.error e =>
    { required :=
        { status := QueryStatus.Error
          «on» := false
          online := dev.impl.google_home_device.is_online dev.inner
          error_code := some e }
      traits := none }
  | Except.ok states =>
    if !(dev.impl.google_home_device.is_online dev.inner) then
      { required :=
          { status := QueryStatus.Offline
            «on» := true
            online := false
            error_code := none }
        traits := none }
    else
      { required :=
          { status := QueryStatus.Success
            online := true
            «on» := true
            error_code := none }
        traits := some states }

/-- Outcome of one `execute_inner` run: a panic, or the dispatcher
result together with the (possibly mutated) device state. -/
def ExecInnerResult (σ : Type) : Type := PanicOr ((Except ExecuteError CommandState) × σ)

/-- One `?`-propagated call of a mutating capability method: an error is
folded into `ExecuteError` by the method's `From` conversion (mutations
already performed persist); success yields the given command state. -/
def callMut {σ E α : Type} (conv : E → ExecuteError) (r : (Except E α) × σ)
    (state : CommandState) : ExecInnerResult σ :=
  match r with
  | (Except.error e, s2) => PanicOr.ok (Except.error (conv e), s2)
  | (Except.ok _, s2) => PanicOr.ok (Except.ok state, s2)

/-- One `?`-propagated call of a `&self` capability method. -/
def callPure {σ E α : Type} (conv : E → ExecuteError) (r : Except E α)
    (state : CommandState) (s : σ) : ExecInnerResult σ :=
  match r with
  | Except.error e => PanicOr.ok (Except.error (conv e), s)
  | Except.ok _ => PanicOr.ok (Except.ok state, s)

/-- One optional-parameter sub-step (`if let Some(v) = x { m(v)?; }`). -/
def optStep {σ E α : Type} (conv : E → ExecuteError) (x : Option α)
    (f : α → σ → (Except E Unit) × σ) (state : CommandState) (s : σ) :
    ExecInnerResult σ :=
  match x with
  | some v => callMut conv (f v s) state
  | none => PanicOr.ok (Except.ok state, s)

/-- Sequencing of two dispatcher sub-steps: a panic or an error in the
first step short-circuits. -/
def andThenEx {σ : Type} (r : ExecInnerResult σ)
    (k : CommandState → σ → ExecInnerResult σ) : ExecInnerResult σ :=
  match r with
  | PanicOr.panicked m => PanicOr.panicked m
  | PanicOr.ok (Except.error e, s) => PanicOr.ok (Except.error e, s)
  | PanicOr.ok (Except.ok st, s) => k st s

/-- The `SetModes` update loop (`for (mode_name, setting_name) in
update_mode_settings { device.update_mode(...)?; }`); `update_mode`
takes `&self` in the source. -/
def updateModesLoop {σ : Type} (m : Modes σ) (state : CommandState) (s : σ) :
    List (String × String) → ExecInnerResult σ
  | [] => PanicOr.ok (Except.ok state, s)
  | (mode_name, setting_name) :: rest =>
    match m.update_mode mode_name setting_name s with
    | Except.error e => PanicOr.ok (Except.error (ExecuteError.fromCombined e), s)
    | Except.ok _ => updateModesLoop m state s rest

/-- The `SetToggles` update loop (`for (k, v) in update_toggle_settings
{ device.set_toggle(k, v)?; }`). -/
def setTogglesLoop {σ : Type} (t : Toggles σ) (state : CommandState) (s : σ) :
    List (String × Bool) → ExecInnerResult σ
  | [] => PanicOr.ok (Except.ok state, s)
  | (k, v) :: rest =>
    match t.set_toggle k v s with
    | (Except.error e, s2) => PanicOr.ok (Except.error (ExecuteError.fromCombined e), s2)
    | (Except.ok _, s2) => setTogglesLoop t state s2 rest

/-- Command dispatcher core (`Device::execute_inner`, `src/device.rs`
lines 551-1251).  Each handled command first looks up its capability
slot and panics with `Unsupported` when the slot is empty, then invokes
the capability operations, folding their errors through the `From`
conversions into `ExecuteError`.  `Dispense` additionally unwraps its
`unit`/`amount` parameters (a panic when absent), `LockUnlock` reads the
lock state back into the command state, and `GetGuestNetworkPassword`
stores the retrieved password.  The trailing catch-all returns the
default command state for the two command variants without a dispatch
arm (`SetHumidity`, `HumidityRelative`). -/
def Device.execute_inner {σ : Type} (dev : Device σ) (command : CommandType) :
    ExecInnerResult σ :=
  let s := dev.inner
  let impl := dev.impl
  let dt := dev.device_traits
  let state : CommandState := {}
  match command with
  | CommandType.AppInstall new_application new_application_name =>
    if dt.app_selector then
      andThenEx (optStep ExecuteError.fromCombined new_application impl.app_selector.app_install_key state s)
        (fun st s2 => optStep ExecuteError.fromCombined new_application_name impl.app_selector.app_install_name st s2)
    else PanicOr.panicked "Unsupported"
  | CommandType.AppSearch new_application new_application_name =>
    if dt.app_selector then
      andThenEx (optStep ExecuteError.fromCombined new_application impl.app_selector.app_search_key state s)
        (fun st s2 => optStep ExecuteError.fromCombined new_application_name impl.app_selector.app_search_name st s2)
    else PanicOr.panicked "Unsupported"
  | CommandType.AppSelect new_application new_application_name =>
    if dt.app_selector then
      andThenEx (optStep ExecuteError.fromCombined new_application impl.app_selector.app_select_key state s)
        (fun st s2 => optStep ExecuteError.fromCombined new_application_name impl.app_selector.app_select_name st s2)
    else PanicOr.panicked "Unsupported"
  | CommandType.ArmDisarm _ arm cancel arm_level =>
    if dt.arm_disarm then
      match cancel with
      | some c =>
        if c then callMut ExecuteError.fromArmDisarm (impl.arm_disarm.cancel_arm s) state
        else PanicOr.ok (Except.ok state, s)
      | none =>
        match arm_level with
        | some level => callMut ExecuteError.fromArmDisarm (impl.arm_disarm.arm_with_level arm level s) state
        | none => callMut ExecuteError.fromArmDisarm (impl.arm_disarm.arm arm s) state
    else PanicOr.panicked "Unsupported"
  | CommandType.BrightnessAbsolute brightness =>
    if dt.brightness then
      callMut ExecuteError.fromCombined (impl.brightness.set_brightness_absolute brightness s) state
    else PanicOr.panicked "Unsupported"
  | CommandType.BrightnessRelative brightness_relative_percent brightness_relative_weight =>
    if dt.brightness then
      andThenEx (optStep ExecuteError.fromCombined brightness_relative_percent impl.brightness.set_brightness_relative_percent state s)
        (fun st s2 => optStep ExecuteError.fromCombined brightness_relative_weight impl.brightness.set_brightness_relative_weight st s2)
    else PanicOr.panicked "Unsupported"
  | CommandType.GetCameraStream stream_to_chromecast supported_stream_protocols =>
    if dt.camera_stream then
      callMut ExecuteError.fromCombined (impl.camera_stream.get_camera_stream stream_to_chromecast supported_stream_protocols s) state
    else PanicOr.panicked "Unsupported"
  | CommandType.SelectChannel channel_code channel_name channel_number =>
    if dt.channel then
      match channel_code with
      | some code => callMut ExecuteError.fromCombined (impl.channel.select_channel_by_id code channel_name channel_number s) state
      | none =>
        match channel_number with
        | some number => callMut ExecuteError.fromCombined (impl.channel.select_channel_by_number number s) state
        | none => PanicOr.ok (Except.ok state, s)
    else PanicOr.panicked "Unsupported"
  | CommandType.RelativeChannel relative_channel_change =>
    if dt.channel then
      callMut ExecuteError.fromCombined (impl.channel.select_channel_relative relative_channel_change s) state
    else PanicOr.panicked "Unsupported"
  | CommandType.ReturnChannel =>
    if dt.channel then
      callMut ExecuteError.fromCombined (impl.channel.return_to_last_channel s) state
    else PanicOr.panicked "Unsupported"
  | CommandType.ColorAbsolute color =>
    if dt.color_setting then
      callMut ExecuteError.fromCombined (impl.color_setting.set_color color s) state
    else PanicOr.panicked "Unsupported"
  | CommandType.Cook start cooking_mode food_preset quantity unit =>
    if dt.cook then
      if start then
        callMut ExecuteError.fromCook
          (impl.cook.start { cooking_mode := cooking_mode, food_preset := food_preset, quantity := quantity, unit := unit } s) state
      else callMut ExecuteError.fromCook (impl.cook.stop s) state
    else PanicOr.panicked "Unsupported"
  | CommandType.Dispense item amount unit preset_name =>
    if dt.dispense then
      match item with
      | some it =>
        match unit with
        | none => PanicOr.panicked "called Option::unwrap on a None value"
        | some u =>
          match amount with
          | none => PanicOr.panicked "called Option::unwrap on a None value"
          | some am => callPure ExecuteError.fromDispense (impl.dispense.dispense_amount it am u s) state s
      | none =>
        match preset_name with
        | some preset => callPure ExecuteError.fromDispense (impl.dispense.dispense_preset preset s) state s
        | none => callPure ExecuteError.fromDispense (impl.dispense.dispense_default s) state s
    else PanicOr.panicked "Unsupported"
  | CommandType.Dock =>
    if dt.dock then
      callMut ExecuteError.fromCombined (impl.dock.dock s) state
    else PanicOr.panicked "Unsupported"
  | CommandType.Charge charge =>
    if dt.energy_storage then
      callMut ExecuteError.fromEnergyStorage (impl.energy_storage.charge charge s) state
    else PanicOr.panicked "Unsupported"
  | CommandType.SetFanSpeed fan_speed fan_speed_percent =>
    if dt.fan_speed then
      match fan_speed with
      | some v => callPure ExecuteError.fromFanSpeed (impl.fan_speed.set_fan_speed_setting v s) state s
      | none =>
        match fan_speed_percent with
        | some p => callPure ExecuteError.fromFanSpeed (impl.fan_speed.set_fan_speed_percent p s) state s
        | none => PanicOr.ok (Except.ok state, s)
    else PanicOr.panicked "Unsupported"
  | CommandType.SetFanSpeedRelative fan_speed_relative_weight fan_speed_relative_percent =>
    if dt.fan_speed then
      match fan_speed_relative_weight with
      | some w => callPure ExecuteError.fromFanSpeed (impl.fan_speed.set_fan_speed_relative_weight w s) state s
      | none =>
        match fan_speed_relative_percent with
        | some p => callPure ExecuteError.fromFanSpeed (impl.fan_speed.set_fan_speed_relative_percent p s) state s
        | none => PanicOr.ok (Except.ok state, s)
    else PanicOr.panicked "Unsupported"
  | CommandType.Reverse =>
    if dt.fan_speed then
      callPure ExecuteError.fromFanSpeed (impl.fan_speed.set_fan_reverse s) state s
    else PanicOr.panicked "Unsupported"
  | CommandType.Fill fill fill_level fill_percent =>
    if dt.fill then
      match fill_level with
      | some level => callMut ExecuteError.fromCombined (impl.fill.fill_to_level level s) state
      | none =>
        match fill_percent with
        | some percent => callMut ExecuteError.fromCombined (impl.fill.fill_to_percent percent s) state
        | none => callMut ExecuteError.fromCombined (impl.fill.fill fill s) state
    else PanicOr.panicked "Unsupported"
  | CommandType.SetInput new_input =>
    if dt.input_selector then
      callMut ExecuteError.fromInputSelector (impl.input_selector.set_input new_input s) state
    else PanicOr.panicked "Unsupported"
  | CommandType.NextInput =>
    if dt.input_selector then
      callMut ExecuteError.fromInputSelector (impl.input_selector.set_next_input s) state
    else PanicOr.panicked "Unsupported"
  | CommandType.PreviousInput =>
    if dt.input_selector then
      callMut ExecuteError.fromInputSelector (impl.input_selector.set_previous_input s) state
    else PanicOr.panicked "Unsupported"
  | CommandType.ColorLoop duration =>
    if dt.light_effects then
      callMut ExecuteError.fromCombined (impl.light_effects.set_color_loop duration s) state
    else PanicOr.panicked "Unsupported"
  | CommandType.Sleep duration =>
    if dt.light_effects then
      callMut ExecuteError.fromCombined (impl.light_effects.set_sleep duration s) state
    else PanicOr.panicked "Unsupported"
  | CommandType.StopEffect =>
    if dt.light_effects then
      callMut ExecuteError.fromCombined (impl.light_effects.stop_effect s) state
    else PanicOr.panicked "Unsupported"
  | CommandType.Wake duration =>
    if dt.light_effects then
      callMut ExecuteError.fromCombined (impl.light_effects.set_wake duration s) state
    else PanicOr.panicked "Unsupported"
  | CommandType.Locate silence lang =>
    if dt.locator then
      callMut ExecuteError.fromCombined (impl.locator.locate (some silence) (some lang) s) state
    else PanicOr.panicked "Unsupported"
  | CommandType.LockUnlock lock _ =>
    if dt.lock_unlock then
      match impl.lock_unlock.set_locked lock s with
      | (Except.error e, s2) => PanicOr.ok (Except.error (ExecuteError.fromLockUnlock e), s2)
      | (Except.ok _, s2) =>
        match impl.lock_unlock.is_locked s2 with
        | Except.error e => PanicOr.ok (Except.error (ExecuteError.fromCombined e), s2)
        | Except.ok locked => PanicOr.ok (Except.ok { state with lock := some locked }, s2)
    else PanicOr.panicked "Unsupported"
  | CommandType.SetModes update_mode_settings =>
    if dt.modes then
      updateModesLoop impl.modes state s update_mode_settings
    else PanicOr.panicked "Unsupported"
  | CommandType.EnableDisableGuestNetwork enable =>
    if dt.network_control then
      callMut ExecuteError.fromNetworkControl (impl.network_control.set_guest_network_enabled enable s) state
    else PanicOr.panicked "Unsupported"
  | CommandType.EnableDisableNetworkProfile profile enable =>
    if dt.network_control then
      callMut ExecuteError.fromNetworkControl (impl.network_control.set_network_profile_enabled profile enable s) state
    else PanicOr.panicked "Unsupported"
  | CommandType.GetGuestNetworkPassword =>
    if dt.network_control then
      match impl.network_control.get_guest_network_password s with
      | Except.error e => PanicOr.ok (Except.error (ExecuteError.fromNetworkControl e), s)
      | Except.ok password => PanicOr.ok (Except.ok { state with guest_network_password := some password }, s)
    else PanicOr.panicked "Unsupported"
  | CommandType.TestNetworkSpeed test_download_speed test_upload_speed _ =>
    if dt.network_control then
      callMut ExecuteError.fromNetworkControl (impl.network_control.test_network_speed test_download_speed test_upload_speed s) state
    else PanicOr.panicked "Unsupported"
  | CommandType.OnOff on_value =>
    if dt.on_off then
      callMut ExecuteError.fromCombined (impl.on_off.set_on on_value s) state
    else PanicOr.panicked "Unsupported"
  | CommandType.OpenClose open_percent open_direction =>
    if dt.open_close then
      callMut ExecuteError.fromOpenClose (impl.open_close.set_open open_percent open_direction s) state
    else PanicOr.panicked "Unsupported"
  | CommandType.OpenCloseRelative open_relative_percent open_direction =>
    if dt.open_close then
      callMut ExecuteError.fromOpenClose (impl.open_close.set_open_relative open_relative_percent open_direction s) state
    else PanicOr.panicked "Unsupported"
  | CommandType.Reboot =>
    if dt.reboot then
      callMut ExecuteError.fromCombined (impl.reboot.reboot s) state
    else PanicOr.panicked "Unsupported"
  | CommandType.RotationAbsolute rotation_degrees rotation_percent =>
    if dt.rotation then
      match rotation_degrees with
      | some deg => callMut ExecuteError.fromCombined (impl.rotation.set_rotation_degrees deg s) state
      | none =>
        match rotation_percent with
        | some per => callMut ExecuteError.fromCombined (impl.rotation.set_rotation_percent per s) state
        | none => PanicOr.ok (Except.ok state, s)
    else PanicOr.panicked "Unsupported"
  | CommandType.ActivateScene deactivate =>
    if dt.scene then
      if deactivate then callMut ExecuteError.fromCombined (impl.scene.deactivate s) state
      else callMut ExecuteError.fromCombined (impl.scene.activate s) state
    else PanicOr.panicked "Unsupported"
  | CommandType.SoftwareUpdate =>
    if dt.software_update then
      callMut ExecuteError.fromCombined (impl.software_update.perform_update s) state
    else PanicOr.panicked "Unsupported"
  | CommandType.StartStop start zone multiple_zones =>
    if dt.start_stop then
      let zones := match zone with
        | some z => some [z]
        | none => multiple_zones
      callMut ExecuteError.fromCombined (impl.start_stop.start_stop start zones s) state
    else PanicOr.panicked "Unsupported"
  | CommandType.PauseUnpause pause =>
    if dt.start_stop then
      callMut ExecuteError.fromCombined (impl.start_stop.pause_unpause pause s) state
    else PanicOr.panicked "Unsupported"
  | CommandType.SetTemperature temperature =>
    if dt.temperature_control then
      callMut ExecuteError.fromCombined (impl.temperature_control.set_temperature temperature s) state
    else PanicOr.panicked "Unsupported"
  | CommandType.ThermostatTemperatureSetpoint thermostat_temperature_setpoint =>
    if dt.temperature_setting then
      callMut ExecuteError.fromCombined (impl.temperature_setting.set_temperature_setpoint thermostat_temperature_setpoint s) state
    else PanicOr.panicked "Unsupported"
  | CommandType.ThermostatTemperatureSetRange hi lo =>
    if dt.temperature_setting then
      callMut ExecuteError.fromCombined (impl.temperature_setting.set_temperature_set_range hi lo s) state
    else PanicOr.panicked "Unsupported"
  | CommandType.ThermostatSetMode thermostat_mode =>
    if dt.temperature_setting then
      callMut ExecuteError.fromCombined (impl.temperature_setting.set_thermostat_mode thermostat_mode s) state
    else PanicOr.panicked "Unsupported"
  | CommandType.TemperatureRelative thermostat_temperature_relative_degree thermostat_temperature_relative_weight =>
    if dt.temperature_setting then
      andThenEx (optStep ExecuteError.fromCombined thermostat_temperature_relative_degree impl.temperature_setting.set_temperature_relative_degree state s)
        (fun st s2 => optStep ExecuteError.fromCombined thermostat_temperature_relative_weight impl.temperature_setting.set_temperature_relative_weight st s2)
    else PanicOr.panicked "Unsupported"
  | CommandType.TimerStart timer_time_sec =>
    if dt.timer then
      callMut ExecuteError.fromCombined (impl.timer.start_timer timer_time_sec s) state
    else PanicOr.panicked "Unsupported"
  | CommandType.TimerAdjust timer_time_sec =>
    if dt.timer then
      callMut ExecuteError.fromCombined (impl.timer.adjust_timer timer_time_sec s) state
    else PanicOr.panicked "Unsupported"
  | CommandType.TimerPause =>
    if dt.timer then
      callMut ExecuteError.fromCombined (impl.timer.pause_timer s) state
    else PanicOr.panicked "Unsupported"
  | CommandType.TimerResume =>
    if dt.timer then
      callMut ExecuteError.fromCombined (impl.timer.resume_timer s) state
    else PanicOr.panicked "Unsupported"
  | CommandType.TimerCancel =>
    if dt.timer then
      callMut ExecuteError.fromCombined (impl.timer.cancel_timer s) state
    else PanicOr.panicked "Unsupported"
  | CommandType.SetToggles update_toggle_settings =>
    if dt.toggles then
      setTogglesLoop impl.toggles state s update_toggle_settings
    else PanicOr.panicked "Unsupported"
  | CommandType.MediaStop =>
    if dt.transport_control then
      callMut ExecuteError.fromCombined (impl.transport_control.media_stop s) state
    else PanicOr.panicked "Unsupported"
  | CommandType.MediaNext =>
    if dt.transport_control then
      callMut ExecuteError.fromCombined (impl.transport_control.media_next s) state
    else PanicOr.panicked "Unsupported"
  | CommandType.MediaPrevious =>
    if dt.transport_control then
      callMut ExecuteError.fromCombined (impl.transport_control.media_previous s) state
    else PanicOr.panicked "Unsupported"
  | CommandType.MediaPause =>
    if dt.transport_control then
      callMut ExecuteError.fromCombined (impl.transport_control.media_pause s) state
    else PanicOr.panicked "Unsupported"
  | CommandType.MediaResume =>
    if dt.transport_control then
      callMut ExecuteError.fromCombined (impl.transport_control.media_resume s) state
    else PanicOr.panicked "Unsupported"
  | CommandType.MediaSeekRelative relative_position_ms =>
    if dt.transport_control then
      callMut ExecuteError.fromCombined (impl.transport_control.media_seek_relative relative_position_ms s) state
    else PanicOr.panicked "Unsupported"
  | CommandType.MediaSeekToPosition abs_position_ms =>
    if dt.transport_control then
      callMut ExecuteError.fromCombined (impl.transport_control.media_seek_to_position abs_position_ms s) state
    else PanicOr.panicked "Unsupported"
  | CommandType.MediaRepeatMode is_on is_single =>
    if dt.transport_control then
      callMut ExecuteError.fromCombined (impl.transport_control.media_repeat_mode is_on (is_single.getD false) s) state
    else PanicOr.panicked "Unsupported"
  | CommandType.MediaShuffle =>
    if dt.transport_control then
      callMut ExecuteError.fromCombined (impl.transport_control.media_shuffle s) state
    else PanicOr.panicked "Unsupported"
  | CommandType.MediaClosedCaptioningOn closed_captioning_language user_query_language =>
    if dt.transport_control then
      callMut ExecuteError.fromCombined (impl.transport_control.media_closed_captioning_on closed_captioning_language user_query_language s) state
    else PanicOr.panicked "Unsupported"
  | CommandType.MediaClosedCaptioningOff =>
    if dt.transport_control then
      callMut ExecuteError.fromCombined (impl.transport_control.media_closed_captioning_off s) state
    else PanicOr.panicked "Unsupported"
  | CommandType.Mute mute =>
    if dt.volume then
      callMut ExecuteError.fromCombined (impl.volume.mute mute s) state
    else PanicOr.panicked "Unsupported"
  | CommandType.SetVolume volume_level =>
    if dt.volume then
      callMut ExecuteError.fromCombined (impl.volume.set_volume volume_level s) state
    else PanicOr.panicked "Unsupported"
  | CommandType.VolumeRelative relative_steps =>
    if dt.volume then
      callMut ExecuteError.fromCombined (impl.volume.set_volume_relative relative_steps s) state
    else PanicOr.panicked "Unsupported"
  | _ => PanicOr.ok (Except.ok state, s)

/-- Dispatcher entry point for EXECUTE (`Device::execute`,
`src/device.rs` lines 519-547): folds the `execute_inner` outcome into a
`CommandOutput` — success carries the state fragment, a serializable
error becomes `status = ERROR` with the error as the serialized
`error` field, a server error becomes `status = OFFLINE` with only a
local `debug_string` carrying the error text. -/
def Device.execute {σ : Type} (dev : Device σ) (command : CommandType) :
    PanicOr (CommandOutput × Device σ) :=
  match dev.execute_inner command with
  | PanicOr.panicked m => PanicOr.panicked m
  | PanicOr.ok (Except.ok st, s2) =>
    PanicOr.ok
      ({ id := dev.id, status := CommandStatus.Success, state := some st,
         error := none, debug_string := none },
       { dev with inner := s2 })
  | PanicOr.ok (Except.error (ExecuteError.Serializable e), s2) =>
    PanicOr.ok
      ({ id := dev.id, status := CommandStatus.Error, state := none,
         error := some { msg := e }, debug_string := none },
       { dev with inner := s2 })
  | PanicOr.ok (Except.error (ExecuteError.Server e), s2) =>
    PanicOr.ok
      ({ id := dev.id, status := CommandStatus.Offline, state := none,
         error := none, debug_string := some e },
       { dev with inner := s2 })

/-- Capability slot a command's dispatch arm looks up (the slot whose
emptiness makes `execute_inner` panic).  `none` for the two variants
without a dispatch arm (`SetHumidity`, `HumidityRelative`), which fall
through the catch-all. -/
def CommandType.requiredTrait : CommandType → Option Trait
  | CommandType.AppInstall _ _ => some Trait.AppSelector
  | CommandType.AppSearch _ _ => some Trait.AppSelector
  | CommandType.AppSelect _ _ => some Trait.AppSelector
  | CommandType.ArmDisarm _ _ _ _ => some Trait.ArmDisarm
  | CommandType.BrightnessAbsolute _ => some Trait.Brightness
  | CommandType.BrightnessRelative _ _ => some Trait.Brightness
  | CommandType.GetCameraStream _ _ => some Trait.CameraStream
  | CommandType.SelectChannel _ _ _ => some Trait.Channel
  | CommandType.RelativeChannel _ => some Trait.Channel
  | CommandType.ReturnChannel => some Trait.Channel
  | CommandType.ColorAbsolute _ => some Trait.ColorSetting
  | CommandType.Cook _ _ _ _ _ => some Trait.Cook
  | CommandType.Dispense _ _ _ _ => some Trait.Dispense
  | CommandType.Dock => some Trait.Dock
  | CommandType.Charge _ => some Trait.EnergyStorage
  | CommandType.SetFanSpeed _ _ => some Trait.FanSpeed
  | CommandType.SetFanSpeedRelative _ _ => some Trait.FanSpeed
  | CommandType.Reverse => some Trait.FanSpeed
  | CommandType.Fill _ _ _ => some Trait.Fill
  | CommandType.SetHumidity _ => none
  | CommandType.HumidityRelative _ _ => none
  | CommandType.SetInput _ => some Trait.InputSelector
  | CommandType.NextInput => some Trait.InputSelector
  | CommandType.PreviousInput => some Trait.InputSelector
  | CommandType.ColorLoop _ => some Trait.LightEffects
  | CommandType.Sleep _ => some Trait.LightEffects
  | CommandType.StopEffect => some Trait.LightEffects
  | CommandType.Wake _ => some Trait.LightEffects
  | CommandType.Locate _ _ => some Trait.Locator
  | CommandType.LockUnlock _ _ => some Trait.LockUnlock
  | CommandType.SetModes _ => some Trait.Modes
  | CommandType.EnableDisableGuestNetwork _ => some Trait.NetworkControl
  | CommandType.EnableDisableNetworkProfile _ _ => some Trait.NetworkControl
  | CommandType.GetGuestNetworkPassword => some Trait.NetworkControl
  | CommandType.TestNetworkSpeed _ _ _ => some Trait.NetworkControl
  | CommandType.OnOff _ => some Trait.OnOff
  | CommandType.OpenClose _ _ => some Trait.OpenClose
  | CommandType.OpenCloseRelative _ _ => some Trait.OpenClose
  | CommandType.Reboot => some Trait.Reboot
  | CommandType.RotationAbsolute _ _ => some Trait.Rotation
  | CommandType.ActivateScene _ => some Trait.Scene
  | CommandType.SoftwareUpdate => some Trait.SoftwareUpdate
  | CommandType.StartStop _ _ _ => some Trait.StartStop
  | CommandType.PauseUnpause _ => some Trait.StartStop
  | CommandType.SetTemperature _ => some Trait.TemperatureControl
  | CommandType.ThermostatTemperatureSetpoint _ => some Trait.TemperatureSetting
  | CommandType.ThermostatTemperatureSetRange _ _ => some Trait.TemperatureSetting
  | CommandType.ThermostatSetMode _ => some Trait.TemperatureSetting
  | CommandType.TemperatureRelative _ _ => some Trait.TemperatureSetting
  | CommandType.TimerStart _ => some Trait.Timer
  | CommandType.TimerAdjust _ => some Trait.Timer
  | CommandType.TimerPause => some Trait.Timer
  | CommandType.TimerResume => some Trait.Timer
  | CommandType.TimerCancel => some Trait.Timer
  | CommandType.SetToggles _ => some Trait.Toggles
  | CommandType.MediaStop => some Trait.TransportControl
  | CommandType.MediaNext => some Trait.TransportControl
  | CommandType.MediaPrevious => some Trait.TransportControl
  | CommandType.MediaPause => some Trait.TransportControl
  | CommandType.MediaResume => some Trait.TransportControl
  | CommandType.MediaSeekRelative _ => some Trait.TransportControl
  | CommandType.MediaSeekToPosition _ => some Trait.TransportControl
  | CommandType.MediaRepeatMode _ _ => some Trait.TransportControl
  | CommandType.MediaShuffle => some Trait.TransportControl
  | CommandType.MediaClosedCaptioningOn _ _ => some Trait.TransportControl
  | CommandType.MediaClosedCaptioningOff => some Trait.TransportControl
  | CommandType.Mute _ => some Trait.Volume
  | CommandType.SetVolume _ => some Trait.Volume
  | CommandType.VolumeRelative _ => some Trait.Volume

/-- SYNC collector for one device as the orchestrator uses it
(`Device::sync`, `src/lib.rs` lines 221-243): identity metadata plus the
active-trait list; that constructor sets no attributes. -/
def Device.sync {σ : Type} (dev : Device σ) : SyncDevice :=
  let name := dev.impl.google_home_device.get_device_name dev.inner
  let info := dev.impl.google_home_device.get_device_info dev.inner
  { id := dev.id
    device_type := dev.device_type.as_device_type_string
    traits := dev.traits
    name := { name := name.name, default_names := name.default_names, nicknames := name.nicknames }
    will_report_state := dev.impl.google_home_device.will_report_state dev.inner
    room_hint := dev.impl.google_home_device.get_room_hint dev.inner
    device_info := { manufacturer := info.manufacturer, model := info.model,
                     hw_version := info.hw, sw_version := info.sw } }

/-- Fulfillment orchestrator (`src/lib.rs`, `struct Homelander<T>`). -/
structure Homelander (σ : Type) where
  agent_user_id : String
  devices : List (Device σ)

/-- Constructor `Homelander::new` (used by `tests/execute.rs`): the
device collection starts empty. -/
def Homelander.new {σ : Type} (agent_user_id : String) : Homelander σ :=
  { agent_user_id := agent_user_id, devices := [] }

/-- Registration `Homelander::add_device` (`src/lib.rs`). -/
def Homelander.add_device {σ : Type} (hl : Homelander σ) (device : Device σ) : Homelander σ :=
  { hl with devices := hl.devices ++ [device] }

/-- Removal `Homelander::remove_device` (`src/lib.rs`): retains devices
whose id differs. -/
def Homelander.remove_device {σ : Type} (hl : Homelander σ) (id : String) : Homelander σ :=
  { hl with devices := hl.devices.filter (fun d => d.id != id) }

/-- Orchestrator SYNC (`Homelander::sync`, `src/lib.rs` lines 129-138):
maps the per-device SYNC collector over the whole registry. -/
def Homelander.sync {σ : Type} (hl : Homelander σ) : SyncResponsePayload :=
  { agent_user_id := hl.agent_user_id
    devices := hl.devices.map Device.sync }

/-- Inner loop of `Homelander::execute` (`src/lib.rs` lines 140-151):
every registry device whose id matches is dispatched (and possibly
mutated); the outputs are collected in registry order. -/
def executeMatchingDevices {σ : Type} (device_id : String) (command : CommandType) :
    List (Device σ) → PanicOr (List CommandOutput × List (Device σ))
  | [] => PanicOr.ok ([], [])
  | d :: rest =>
    if d.id == device_id then
      match d.execute command with
      | PanicOr.panicked m => PanicOr.panicked m
      | PanicOr.ok (out, d2) =>
        match executeMatchingDevices device_id command rest with
        | PanicOr.panicked m => PanicOr.panicked m
        | PanicOr.ok (outs, rest2) => PanicOr.ok (out :: outs, d2 :: rest2)
    else
      match executeMatchingDevices device_id command rest with
      | PanicOr.panicked m => PanicOr.panicked m
      | PanicOr.ok (outs, rest2) => PanicOr.ok (outs, d :: rest2)

/-- Per-(device id, command) dispatch (`Homelander::execute`,
`src/lib.rs` lines 140-151): all matching devices are dispatched; a
device id with zero matches yields `None`; otherwise the first match's
output is returned. -/
def Homelander.execute {σ : Type} (hl : Homelander σ) (device_id : String)
    (command : CommandType) : PanicOr (Option CommandOutput × Homelander σ) :=
  match executeMatchingDevices device_id command hl.devices with
  | PanicOr.panicked m => PanicOr.panicked m
  | PanicOr.ok (outs, devs) =>
    let hl2 := { hl with devices := devs }
    match outs with
    | [] => PanicOr.ok (none, hl2)
    | out :: _ => PanicOr.ok (some out, hl2)

/-- Innermost EXECUTE request loop (`src/lib.rs` lines 74-79): one
device id crossed with every command of the group's execution list. -/
def execCommandsForDevice {σ : Type} (device_id : String) :
    List CommandType → Homelander σ → PanicOr (List (Option CommandOutput) × Homelander σ)
  | [], hl => PanicOr.ok ([], hl)
  | c :: rest, hl =>
    match hl.execute device_id c with
    | PanicOr.panicked m => PanicOr.panicked m
    | PanicOr.ok (out, hl2) =>
      match execCommandsForDevice device_id rest hl2 with
      | PanicOr.panicked m => PanicOr.panicked m
      | PanicOr.ok (outs, hl3) => PanicOr.ok (out :: outs, hl3)

/-- Middle EXECUTE request loop (`src/lib.rs` lines 72-84): every device
of one command group, flattening and dropping `None` outputs
(`filter_map`). -/
def execDevicesOfGroup {σ : Type} (execution : List CommandType) :
    List ReqDevice → Homelander σ → PanicOr (List CommandOutput × Homelander σ)
  | [], hl => PanicOr.ok ([], hl)
  | d :: rest, hl =>
    match execCommandsForDevice d.id execution hl with
    | PanicOr.panicked m => PanicOr.panicked m
    | PanicOr.ok (outs, hl2) =>
      match execDevicesOfGroup execution rest hl2 with
      | PanicOr.panicked m => PanicOr.panicked m
      | PanicOr.ok (outs2, hl3) => PanicOr.ok (outs.filterMap id ++ outs2, hl3)

/-- Outer EXECUTE request loop (`src/lib.rs` lines 71-89): every command
group of the request, in order. -/
def execGroups {σ : Type} :
    List ReqCommand → Homelander σ → PanicOr (List CommandOutput × Homelander σ)
  | [], hl => PanicOr.ok ([], hl)
  | g :: rest, hl =>
    match execDevicesOfGroup g.execution g.devices hl with
    | PanicOr.panicked m => PanicOr.panicked m
    | PanicOr.ok (outs, hl2) =>
      match execGroups rest hl2 with
      | PanicOr.panicked m => PanicOr.panicked m
      | PanicOr.ok (outs2, hl3) => PanicOr.ok (outs ++ outs2, hl3)

/-- Conversion of one dispatcher output into a response entry
(`src/lib.rs` lines 90-109 for the `Success` and `Error` arms; each
result carries exactly one device id).  Modelled from the spec: the
stale orchestrator's match covers only `Success` and `Error`, while the
current `Device::execute` also produces `Offline`; the remaining arms
follow §6/§7 of the spec — `OFFLINE` surfaces only the local
`debugString`, `PENDING`/`EXCEPTIONS` carry neither state nor error. -/
def commandOutputToResponse (output : CommandOutput) : ResponseCommand :=
  match output.status with
  | CommandStatus.Success =>
    { ids := [output.id], status := CommandStatus.Success,
      states := output.state, error_code := none, debug_string := none }
  | CommandStatus.Error =>
    { ids := [output.id], status := CommandStatus.Error,
      states := none, error_code := output.error, debug_string := none }
  | CommandStatus.Offline =>
    { ids := [output.id], status := CommandStatus.Offline,
      states := none, error_code := none, debug_string := output.debug_string }
  | CommandStatus.Pending =>
    { ids := [output.id], status := CommandStatus.Pending,
      states := none, error_code := none, debug_string := none }
  | CommandStatus.Exceptions =>
    { ids := [output.id], status := CommandStatus.Exceptions,
      states := none, error_code := none, debug_string := none }

/-- EXECUTE input processing (`src/lib.rs` lines 70-114): run the nested
group loop and convert every collected output into a single-id response
entry. -/
def Homelander.processExecute {σ : Type} (hl : Homelander σ)
    (execute : ExecuteRequestPayload) : PanicOr (ExecuteResponsePayload × Homelander σ) :=
  match execGroups execute.commands hl with
  | PanicOr.panicked m => PanicOr.panicked m
  | PanicOr.ok (outs, hl2) =>
    PanicOr.ok ({ commands := outs.map commandOutputToResponse }, hl2)

/-- QUERY input processing.  Modelled from the spec: `handle_request` in
the stale `src/lib.rs` carries only a `TODO QUERY` comment and no match
arm; §4.4 of the spec specifies building a map from each requested
device id to that device's QUERY result, omitting ids with no registry
match (the first match wins). -/
def Homelander.queryPayload {σ : Type} (hl : Homelander σ)
    (q : QueryRequestPayload) : QueryResponsePayload :=
  { error_code := none
    debug_string := none
    devices := q.devices.filterMap (fun d =>
      match hl.devices.find? (fun dev => dev.id == d.id) with
      | some dev => some (d.id, dev.query)
      | none => none) }

/-- Processing of one request input into one response payload
(the per-input body of `handle_request`, `src/lib.rs` lines 69-119). -/
def Homelander.processInput {σ : Type} (hl : Homelander σ) :
    Input → PanicOr (ResponsePayload × Homelander σ)
  | Input.Execute e =>
    match hl.processExecute e with
    | PanicOr.panicked m => PanicOr.panicked m
    | PanicOr.ok (p, hl2) => PanicOr.ok (ResponsePayload.Execute p, hl2)
  | Input.Sync => PanicOr.ok (ResponsePayload.Sync hl.sync, hl)
  | Input.Query q => PanicOr.ok (ResponsePayload.Query (hl.queryPayload q), hl)

/-- Eager processing of every input of the request in order, collecting
one payload per input (the `map`/`collect` pipeline of
`handle_request`). -/
def processInputs {σ : Type} :
    List Input → Homelander σ → PanicOr (List ResponsePayload × Homelander σ)
  | [], hl => PanicOr.ok ([], hl)
  | i :: rest, hl =>
    match hl.processInput i with
    | PanicOr.panicked m => PanicOr.panicked m
    | PanicOr.ok (p, hl2) =>
      match processInputs rest hl2 with
      | PanicOr.panicked m => PanicOr.panicked m
      | PanicOr.ok (ps, hl3) => PanicOr.ok (p :: ps, hl3)

/-- Request handler (`Homelander::handle_request`, `src/lib.rs` lines
67-127): every input is processed (device mutations from every input
apply), the collected payload list is reduced with `Vec::remove(0)` —
a panic when the request carried no inputs — and the first payload is
wrapped into the response.  With the current `Device::execute` the
dispatch pipeline returns no `Err`, so the model's outcomes are a panic
or a response. -/
def Homelander.handle_request {σ : Type} (hl : Homelander σ) (request : Request) :
    PanicOr (Response × Homelander σ) :=
  match processInputs request.inputs hl with
  | PanicOr.panicked m => PanicOr.panicked m
  | PanicOr.ok (payloads, hl2) =>
    match payloads with
    | [] => PanicOr.panicked "removal index (is 0) should be less than len (is 0)"
    | p :: _ => PanicOr.ok ({ request_id := request.request_id, payload := p }, hl2)

/-- One registration call on the device registry: each constructor
stands for one `set_<capability>` method of `src/device.rs`. -/
inductive RegOp where
  | set_app_selector | set_arm_disarm | set_brightness | set_camera_stream
  | set_channel | set_color_setting | set_cook | set_dispense | set_dock
  | set_energy_storage | set_fan_speed | set_input_selector
  | set_light_effects | set_locator | set_lock_unlock | set_media_state
  | set_modes | set_network_control | set_on_off | set_open_close
  | set_reboot | set_rotation | set_run_cycle | set_scene
  | set_sensor_state | set_software_update | set_start_stop
  | set_status_report | set_temperature_control | set_temperature_setting
  | set_timer | set_toggles | set_transport_control | set_volume
deriving DecidableEq, Repr

/-- Applies one registration call to a device. -/
def applyRegOp {σ : Type} (op : RegOp) (d : Device σ) : Device σ :=
  match op with
  | RegOp.set_app_selector => d.set_app_selector
  | RegOp.set_arm_disarm => d.set_arm_disarm
  | RegOp.set_brightness => d.set_brightness
  | RegOp.set_camera_stream => d.set_camera_stream
  | RegOp.set_channel => d.set_channel
  | RegOp.set_color_setting => d.set_color_setting
  | RegOp.set_cook => d.set_cook
  | RegOp.set_dispense => d.set_dispense
  | RegOp.set_dock => d.set_dock
  | RegOp.set_energy_storage => d.set_energy_storage
  | RegOp.set_fan_speed => d.set_fan_speed
  | RegOp.set_input_selector => d.set_input_selector
  | RegOp.set_light_effects => d.set_light_effects
  | RegOp.set_locator => d.set_locator
  | RegOp.set_lock_unlock => d.set_lock_unlock
  | RegOp.set_media_state => d.set_media_state
  | RegOp.set_modes => d.set_modes
  | RegOp.set_network_control => d.set_network_control
  | RegOp.set_on_off => d.set_on_off
  | RegOp.set_open_close => d.set_open_close
  | RegOp.set_reboot => d.set_reboot
  | RegOp.set_rotation => d.set_rotation
  | RegOp.set_run_cycle => d.set_run_cycle
  | RegOp.set_scene => d.set_scene
  | RegOp.set_sensor_state => d.set_sensor_state
  | RegOp.set_software_update => d.set_software_update
  | RegOp.set_start_stop => d.set_start_stop
  | RegOp.set_status_report => d.set_status_report
  | RegOp.set_temperature_control => d.set_temperature_control
  | RegOp.set_temperature_setting => d.set_temperature_setting
  | RegOp.set_timer => d.set_timer
  | RegOp.set_toggles => d.set_toggles
  | RegOp.set_transport_control => d.set_transport_control
  | RegOp.set_volume => d.set_volume

/-- The capability tag a registration call appends. -/
def RegOp.tag : RegOp → Trait
  | RegOp.set_app_selector => Trait.AppSelector
  | RegOp.set_arm_disarm => Trait.ArmDisarm
  | RegOp.set_brightness => Trait.Brightness
  | RegOp.set_camera_stream => Trait.CameraStream
  | RegOp.set_channel => Trait.Channel
  | RegOp.set_color_setting => Trait.ColorSetting
  | RegOp.set_cook => Trait.Cook
  | RegOp.set_dispense => Trait.Dispense
  | RegOp.set_dock => Trait.Dock
  | RegOp.set_energy_storage => Trait.EnergyStorage
  | RegOp.set_fan_speed => Trait.FanSpeed
  | RegOp.set_input_selector => Trait.InputSelector
  | RegOp.set_light_effects => Trait.LightEffects
  | RegOp.set_locator => Trait.Locator
  | RegOp.set_lock_unlock => Trait.LockUnlock
  | RegOp.set_media_state => Trait.MediaState
  | RegOp.set_modes => Trait.Modes
  | RegOp.set_network_control => Trait.NetworkControl
  | RegOp.set_on_off => Trait.OnOff
  | RegOp.set_open_close => Trait.OpenClose
  | RegOp.set_reboot => Trait.Reboot
  | RegOp.set_rotation => Trait.Rotation
  | RegOp.set_run_cycle => Trait.RunCycle
  | RegOp.set_scene => Trait.Scene
  | RegOp.set_sensor_state => Trait.SensorState
  | RegOp.set_software_update => Trait.SoftwareUpdate
  | RegOp.set_start_stop => Trait.StartStop
  | RegOp.set_status_report => Trait.StatusReport
  | RegOp.set_temperature_control => Trait.TemperatureControl
  | RegOp.set_temperature_setting => Trait.TemperatureSetting
  | RegOp.set_timer => Trait.Timer
  | RegOp.set_toggles => Trait.Toggles
  | RegOp.set_transport_control => Trait.TransportControl
  | RegOp.set_volume => Trait.Volume

/-- Test-device scaffolding: an identity implementation whose device is
online and reports empty metadata (in the style of the crate's
`UltimateSwitch` test device in `tests/execute.rs`). -/
def defaultGoogleHomeDevice (σ : Type) : GoogleHomeDevice σ :=
  { get_device_name := fun _ => { name := "", default_names := [], nicknames := [] }
    get_device_info := fun _ => { manufacturer := "", model := "", hw := "", sw := "" }
    will_report_state := fun _ => false
    get_room_hint := fun _ => none
    is_online := fun _ => true
    disconnect := fun s => s }

/-- Test-device scaffolding: a full method table whose getters return
fixed harmless values and whose mutators are no-ops; concrete devices in
the theorems below override the capability under test. -/
def defaultImpl (σ : Type) : DeviceImpl σ :=
  { google_home_device := defaultGoogleHomeDevice σ
    app_selector :=
      { get_current_application := fun _ => Except.ok ""
        app_install_key := fun _ s => (Except.ok (), s)
        app_install_name := fun _ s => (Except.ok (), s)
        app_search_key := fun _ s => (Except.ok (), s)
        app_search_name := fun _ s => (Except.ok (), s)
        app_select_key := fun _ s => (Except.ok (), s)
        app_select_name := fun _ s => (Except.ok (), s) }
    arm_disarm :=
      { is_armed := fun _ => Except.ok false
        current_arm_level := fun _ => Except.ok ""
        exit_allowance := fun _ => Except.ok 0
        arm := fun _ s => (Except.ok (), s)
        cancel_arm := fun s => (Except.ok (), s)
        arm_with_level := fun _ _ s => (Except.ok (), s) }
    brightness :=
      { get_brightness := fun _ => Except.ok 0
        set_brightness_absolute := fun _ s => (Except.ok (), s)
        set_brightness_relative_percent := fun _ s => (Except.ok (), s)
        set_brightness_relative_weight := fun _ s => (Except.ok (), s) }
    camera_stream :=
      { get_camera_stream := fun _ _ s =>
          (Except.ok { camera_stream_auth_token := none
                       camera_stream_protocol := CameraStreamProtocol.Hls
                       access_descriptor := CameraStreamAccess.NonWebRtc "" none }, s) }
    channel :=
      { select_channel_by_id := fun _ _ _ s => (Except.ok (), s)
        select_channel_by_number := fun _ s => (Except.ok (), s)
        select_channel_relative := fun _ s => (Except.ok (), s)
        return_to_last_channel := fun s => (Except.ok (), s) }
    color_setting :=
      { get_color := fun _ => Except.ok { temperature_k := none, spectrum_rgb := none, spectrum_hsv := none }
        set_color := fun _ s => (Except.ok (), s) }
    cook :=
      { get_current_cooking_mode := fun _ => Except.ok CookingMode.None
        get_current_food_preset := fun _ => Except.ok none
        get_current_food_unit := fun _ => Except.ok none
        start := fun _ s => (Except.ok (), s)
        stop := fun s => (Except.ok (), s) }
    dispense :=
      { get_dispense_items_state := fun _ => Except.ok []
        dispense_amount := fun _ _ _ _ => Except.ok ()
        dispense_preset := fun _ _ => Except.ok ()
        dispense_default := fun _ => Except.ok () }
    dock :=
      { is_docked := fun _ => Except.ok false
        dock := fun s => (Except.ok (), s) }
    energy_storage :=
      { get_descriptive_capacity_remaining := fun _ => Except.ok CapacityState.Full
        get_capacity_remaining := fun _ => Except.ok none
        get_capacity_until_full := fun _ => Except.ok none
        is_charging := fun _ => Except.ok none
        is_plugged_in := fun _ => Except.ok none
        charge := fun _ s => (Except.ok (), s) }
    fan_speed :=
      { get_current_fan_speed_setting := fun _ => Except.ok none
        get_current_fan_speed_percent := fun _ => Except.ok none
        set_fan_speed_setting := fun _ _ => Except.ok ()
        set_fan_speed_percent := fun _ _ => Except.ok ()
        set_fan_speed_relative_weight := fun _ _ => Except.ok ()
        set_fan_speed_relative_percent := fun _ _ => Except.ok ()
        set_fan_reverse := fun _ => Except.ok () }
    fill :=
      { is_filled := fun _ => Except.ok false
        get_current_fill_level := fun _ => Except.ok none
        get_current_fill_percent := fun _ => Except.ok none
        fill := fun _ s => (Except.ok (), s)
        fill_to_level := fun _ s => (Except.ok (), s)
        fill_to_percent := fun _ s => (Except.ok (), s) }
    humidity_setting :=
      { get_current_humidity_set_point_range := fun _ => Except.ok 0
        get_current_humidity_ambient_percent := fun _ => Except.ok 0 }
    input_selector :=
      { get_current_input := fun _ => Except.ok ""
        set_input := fun _ s => (Except.ok (), s)
        set_next_input := fun s => (Except.ok (), s)
        set_previous_input := fun s => (Except.ok (), s) }
    light_effects :=
      { get_active_light_effect := fun _ => Except.ok none
        get_light_efccect_end_unix_timestamp_sec := fun _ => Except.ok none
        set_color_loop := fun _ s => (Except.ok (), s)
        set_sleep := fun _ s => (Except.ok (), s)
        stop_effect := fun s => (Except.ok (), s)
        set_wake := fun _ s => (Except.ok (), s) }
    locator := { locate := fun _ _ s => (Except.ok (), s) }
    lock_unlock :=
      { is_locked := fun _ => Except.ok false
        is_jammed := fun _ => Except.ok false
        set_locked := fun _ s => (Except.ok (), s) }
    media_state :=
      { get_activity_state := fun _ => Except.ok none
        get_playback_state := fun _ => Except.ok none }
    modes :=
      { get_current_mode_settings := fun _ => Except.ok []
        update_mode := fun _ _ _ => Except.ok () }
    network_control :=
      { is_network_enabled := fun _ => Except.ok false
        get_network_settings := fun _ => Except.ok { ssid := "" }
        is_guest_network_enabled := fun _ => Except.ok false
        get_guest_network_settings := fun _ => Except.ok { ssid := "" }
        get_num_connected_devices := fun _ => Except.ok 0
        get_network_usage_mb := fun _ => Except.ok { bits := 0 }
        is_network_usage_unlimited := fun _ => Except.ok false
        get_last_network_download_speed_test := fun _ =>
          Except.ok { download_speed_mbps := { bits := 0 }, unix_timestamp_sec := 0, status := SpeedTestStatus.Success }
        get_last_network_upload_speed_test := fun _ =>
          Except.ok { upload_speed_mbps := { bits := 0 }, unix_timestamp_sec := 0, status := SpeedTestStatus.Success }
        is_network_speed_test_in_progress := fun _ => Except.ok none
        get_network_profiles_state := fun _ => Except.ok []
        set_guest_network_enabled := fun _ s => (Except.ok (), s)
        set_network_profile_enabled := fun _ _ s => (Except.ok (), s)
        get_guest_network_password := fun _ => Except.ok ""
        test_network_speed := fun _ _ s => (Except.ok (), s) }
    on_off :=
      { is_on := fun _ => Except.ok false
        set_on := fun _ s => (Except.ok (), s) }
    open_close :=
      { get_open_percent := fun _ => Except.ok none
        get_open_state := fun _ => Except.ok none
        set_open := fun _ _ s => (Except.ok (), s)
        set_open_relative := fun _ _ s => (Except.ok (), s) }
    reboot := { reboot := fun s => (Except.ok (), s) }
    rotation :=
      { get_rotation_degrees := fun _ => Except.ok { bits := 0 }
        get_rotation_percent := fun _ => Except.ok { bits := 0 }
        set_rotation_degrees := fun _ s => (Except.ok (), s)
        set_rotation_percent := fun _ s => (Except.ok (), s) }
    run_cycle :=
      { get_current_run_cycle := fun _ => Except.ok []
        get_current_total_remaining_time := fun _ => Except.ok 0
        get_current_cycle_remaining_time := fun _ => Except.ok 0 }
    sensor_state := { get_current_sensor_states := fun _ => Except.ok [] }
    scene :=
      { activate := fun s => (Except.ok (), s)
        deactivate := fun s => (Except.ok (), s) }
    software_update :=
      { get_last_software_update_unix_timestamp_sec := fun _ => Except.ok 0
        perform_update := fun s => (Except.ok (), s) }
    start_stop :=
      { is_running := fun _ => Except.ok false
        is_paused := fun _ => Except.ok none
        get_active_zones := fun _ => Except.ok none
        start_stop := fun _ _ s => (Except.ok (), s)
        pause_unpause := fun _ s => (Except.ok (), s) }
    status_report := { get_current_status_report := fun _ => Except.ok [] }
    temperature_control :=
      { get_temperature_setpoint_celsius := fun _ => Except.ok { bits := 0 }
        get_temperatuer_ambient_celsius := fun _ => Except.ok { bits := 0 }
        set_temperature := fun _ s => (Except.ok (), s) }
    temperature_setting :=
      { get_active_thermostat_mode := fun _ => Except.ok ThermostatMode.Off
        get_target_temp_reached_estimate_unix_timestamp_sec := fun _ => Except.ok none
        get_thermostat_humidity_ambient := fun _ => Except.ok none
        get_thermostat_mode := fun _ =>
          Except.ok (QueryThermostatMode.Fixed ThermostatMode.Off { bits := 0 } { bits := 0 })
        set_temperature_setpoint := fun _ s => (Except.ok (), s)
        set_temperature_set_range := fun _ _ s => (Except.ok (), s)
        set_thermostat_mode := fun _ s => (Except.ok (), s)
        set_temperature_relative_degree := fun _ s => (Except.ok (), s)
        set_temperature_relative_weight := fun _ s => (Except.ok (), s) }
    timer :=
      { get_timer_remaining_sec := fun _ => Except.ok none
        is_timer_paused := fun _ => Except.ok none
        start_timer := fun _ s => (Except.ok (), s)
        adjust_timer := fun _ s => (Except.ok (), s)
        pause_timer := fun s => (Except.ok (), s)
        resume_timer := fun s => (Except.ok (), s)
        cancel_timer := fun s => (Except.ok (), s) }
    toggles :=
      { get_current_toggle_settings := fun _ => Except.ok []
        set_toggle := fun _ _ s => (Except.ok (), s) }
    transport_control :=
      { media_stop := fun s => (Except.ok (), s)
        media_next := fun s => (Except.ok (), s)
        media_previous := fun s => (Except.ok (), s)
        media_pause := fun s => (Except.ok (), s)
        media_resume := fun s => (Except.ok (), s)
        media_seek_relative := fun _ s => (Except.ok (), s)
        media_seek_to_position := fun _ s => (Except.ok (), s)
        media_repeat_mode := fun _ _ s => (Except.ok (), s)
        media_shuffle := fun s => (Except.ok (), s)
        media_closed_captioning_on := fun _ _ s => (Except.ok (), s)
        media_closed_captioning_off := fun s => (Except.ok (), s) }
    volume :=
      { get_current_volume := fun _ => Except.ok none
        is_muted := fun _ => Except.ok none
        mute := fun _ s => (Except.ok (), s)
        set_volume := fun _ s => (Except.ok (), s)
        set_volume_relative := fun _ s => (Except.ok (), s) } }

/-- Claim-side predicate: the command identifier has the published form
`action.devices.commands.<CommandName>` with a non-empty command name. -/
def hasCommandTagForm (c : CommandType) : Bool :=
  commandTagBase.toList.isPrefixOf c.serdeTag.toList &&
    (c.serdeTag.toList.drop commandTagBase.toList.length != [])

/-- C10: for every request whose inputs list is empty, `handle_request`
panics (the `Vec::remove(0)` on the empty list of per-input payloads)
rather than returning a response or an error value. -/
theorem empty_inputs_panics (σ : Type) (hl : Homelander σ) (request_id : String) :
    hl.handle_request { request_id := request_id, inputs := [] } =
      PanicOr.panicked "removal index (is 0) should be less than len (is 0)" := rfl

/-- C7: the command identifiers do not all have the form
`action.devices.commands.<CommandName>` with a non-empty name: the `Wake`
variant deserializes from the misspelled tag `actin.devices.commands.Wake`
and the `MediaRepeatMode` variant from `action.devices.commands.` with an
empty command name; every other variant's tag is well-formed. -/
theorem command_tag_violations :
    hasCommandTagForm (CommandType.Wake none) = false ∧
    (CommandType.Wake none).serdeTag = "actin.devices.commands.Wake" ∧
    hasCommandTagForm (CommandType.MediaRepeatMode true none) = false ∧
    (CommandType.MediaRepeatMode true none).serdeTag = "action.devices.commands." ∧
    (∀ c : CommandType, hasCommandTagForm c = true ∨
       c.serdeTag = "actin.devices.commands.Wake" ∨
       c.serdeTag = "action.devices.commands.") := by
  refine ⟨by decide, by decide, by decide, by decide, ?_⟩
  intro c
  cases c <;> simp only [CommandType.serdeTag, hasCommandTagForm, commandTagBase] <;> decide

/-- The tag-slot invariant of the device registry: a capability tag is in
the ordered active-trait list exactly when the matching slot is
populated. -/
def registryInv {σ : Type} (d : Device σ) : Prop :=
  ∀ t : Trait, t ∈ d.traits ↔ d.device_traits.has t = true

/-- Every registration call appends exactly its own tag. -/
theorem applyRegOp_traits {σ : Type} (op : RegOp) (d : Device σ) :
    (applyRegOp op d).traits = d.traits ++ [op.tag] := by
  cases op <;> rfl

set_option maxHeartbeats 4000000 in
/-- Every registration call populates exactly its own slot, clearing
none. -/
theorem applyRegOp_has {σ : Type} (op : RegOp) (d : Device σ) (t : Trait) :
    (applyRegOp op d).device_traits.has t =
      (d.device_traits.has t || (t == op.tag)) := by
  cases op <;> cases t <;>
    simp [applyRegOp, RegOp.tag, DeviceTraits.has,
      Device.set_app_selector, Device.set_arm_disarm, Device.set_brightness,
      Device.set_camera_stream, Device.set_channel, Device.set_color_setting,
      Device.set_cook, Device.set_dispense, Device.set_dock,
      Device.set_energy_storage, Device.set_fan_speed,
      Device.set_input_selector, Device.set_light_effects,
      Device.set_locator, Device.set_lock_unlock, Device.set_media_state,
      Device.set_modes, Device.set_network_control, Device.set_on_off,
      Device.set_open_close, Device.set_reboot, Device.set_rotation,
      Device.set_run_cycle, Device.set_scene, Device.set_sensor_state,
      Device.set_software_update, Device.set_start_stop,
      Device.set_status_report, Device.set_temperature_control,
      Device.set_temperature_setting, Device.set_timer, Device.set_toggles,
      Device.set_transport_control, Device.set_volume]

/-- A fresh device has every slot empty. -/
theorem new_has_false {σ : Type} (device : σ) (impl : DeviceImpl σ)
    (dtype : DeviceType) (id : String) (t : Trait) :
    (Device.new device impl dtype id).device_traits.has t = false := by
  cases t <;> rfl

/-- One registration call preserves the tag-slot invariant. -/
theorem applyRegOp_registryInv {σ : Type} (op : RegOp) (d : Device σ)
    (h : registryInv d) : registryInv (applyRegOp op d) := by
  intro t
  rw [applyRegOp_traits, applyRegOp_has, List.mem_append, List.mem_singleton]
  constructor
  · intro hmem
    rcases hmem with hmem | hmem
    · rw [(h t).mp hmem]
      simp
    · subst hmem
      simp
  · intro hor
    rcases Bool.or_eq_true_iff.mp hor with hx | hx
    · exact Or.inl ((h t).mpr hx)
    · exact Or.inr (by simpa using hx)

/-- The invariant holds along any sequence of registration calls. -/
theorem foldl_registryInv {σ : Type} (ops : List RegOp) (d : Device σ)
    (h : registryInv d) :
    registryInv (ops.foldl (fun d op => applyRegOp op d) d) := by
  induction ops generalizing d with
  | nil => exact h
  | cons op rest ih => exact ih _ (applyRegOp_registryInv op d h)

/-- C9: for every sequence of registration calls after `Device::new`,
a capability tag appears in the ordered active-trait list exactly when
the matching slot is populated; `Device::new` starts with all slots
empty and an empty list, and each `set_<capability>` call populates
exactly the matching slot and appends exactly the matching tag (no call
clears a slot or removes a tag). -/
theorem registry_tag_slot_invariant (σ : Type) (device : σ)
    (impl : DeviceImpl σ) (dtype : DeviceType) (id : String) :
    (∀ ops : List RegOp,
        registryInv (ops.foldl (fun d op => applyRegOp op d)
          (Device.new device impl dtype id))) ∧
    (Device.new device impl dtype id).traits = [] ∧
    (∀ t : Trait, (Device.new device impl dtype id).device_traits.has t = false) ∧
    (∀ (op : RegOp) (d : Device σ),
        (applyRegOp op d).traits = d.traits ++ [op.tag] ∧
        (∀ t : Trait, (applyRegOp op d).device_traits.has t =
          (d.device_traits.has t || (t == op.tag)))) := by
  refine ⟨?_, rfl, new_has_false device impl dtype id, ?_⟩
  · intro ops
    refine foldl_registryInv ops _ ?_
    intro t
    rw [new_has_false]
    simp [Device.new]
  · intro op d
    exact ⟨applyRegOp_traits op d, fun t => applyRegOp_has op d t⟩

/-- Test-device scaffolding: a device that registered no capability. -/
def bareDevice : Device Unit := Device.new () (defaultImpl Unit) DeviceType.Switch "d0"

/-- C4 counterexample: a `SetHumidity` EXECUTE command against a device
that never registered the humidity capability is not a panic — it falls
through the dispatcher's catch-all arm and is reported as a plain
SUCCESS with the default (empty) state fragment. -/
theorem set_humidity_without_capability_succeeds :
    bareDevice.execute (CommandType.SetHumidity 50) =
      PanicOr.ok ({ id := "d0", status := CommandStatus.Success, state := some {},
                    error := none, debug_string := none }, bareDevice) := rfl

set_option maxHeartbeats 4000000 in
/-- C4 amended: for every command that has a dispatch arm (every variant
except `SetHumidity` and `HumidityRelative`, whose `requiredTrait` is
`none`), invoking it on a device whose matching capability slot is empty
panics with `Unsupported`. -/
theorem missing_capability_panics_amended (σ : Type) (dev : Device σ)
    (command : CommandType) (t : Trait)
    (hreq : command.requiredTrait = some t)
    (hmiss : dev.device_traits.has t = false) :
    dev.execute command = PanicOr.panicked "Unsupported" := by
  cases command <;>
    first
      | (simp [CommandType.requiredTrait] at hreq; done)
      | (simp only [CommandType.requiredTrait, Option.some.injEq] at hreq
         subst hreq
         simp only [DeviceTraits.has] at hmiss
         simp [Device.execute, Device.execute_inner, hmiss])

/-- Witness for the amended C4 theorem at a concrete device and
command. -/
theorem missing_capability_panics_amended_witness :
    bareDevice.execute (CommandType.OnOff true) = PanicOr.panicked "Unsupported" :=
  missing_capability_panics_amended Unit bareDevice (CommandType.OnOff true)
    Trait.OnOff rfl rfl

/-- Test-device scaffolding: a lock whose `set_locked` always raises the
`AlreadyLocked` device error. -/
def lockErrImpl : DeviceImpl Unit :=
  { defaultImpl Unit with
    lock_unlock :=
      { is_locked := fun _ => Except.ok true
        is_jammed := fun _ => Except.ok false
        set_locked := fun _ s =>
          (Except.error (LockUnlockError.Device LockUnlockDeviceError.AlreadyLocked), s) } }

/-- The lock test device with its capability registered. -/
def lockErrDevice : Device Unit :=
  (Device.new () lockErrImpl DeviceType.Lock "lock0").set_lock_unlock

/-- C8: EXECUTE of `LockUnlock(lock = true)` against a device whose
`set_locked` raises `AlreadyLocked` serializes the PascalCase display
string `AlreadyLocked` as the error code, not the camelCase
`alreadyLocked` the protocol (and the enum's own serde attribute)
prescribe. -/
theorem lock_unlock_error_code_pascal_case :
    lockErrDevice.execute (CommandType.LockUnlock true "token") =
      PanicOr.ok ({ id := "lock0", status := CommandStatus.Error, state := none,
                    error := some { msg := "AlreadyLocked" }, debug_string := none },
                  lockErrDevice) ∧
    "AlreadyLocked" ≠ "alreadyLocked" := ⟨rfl, by decide⟩

/-- Test-device scaffolding: a security system whose `arm` fails with an
infrastructure error wrapped in the capability-specific union. -/
def armInfraErrImpl : DeviceImpl Unit :=
  { defaultImpl Unit with
    arm_disarm :=
      { is_armed := fun _ => Except.ok false
        current_arm_level := fun _ => Except.ok ""
        exit_allowance := fun _ => Except.ok 0
        arm := fun _ s =>
          (Except.error (ArmDisarmError.Other (CombinedDeviceError.Other "hardware unreachable")), s)
        cancel_arm := fun s => (Except.ok (), s)
        arm_with_level := fun _ _ s => (Except.ok (), s) } }

/-- The arming test device with its capability registered. -/
def armInfraErrDevice : Device Unit :=
  (Device.new () armInfraErrImpl DeviceType.SecuritySystem "arm0").set_arm_disarm

/-- C1 counterexample: an infrastructure error raised through a
capability-specific error union (`ArmDisarmError::Other`) is folded into
a serializable error, so EXECUTE reports `status = ERROR` with the raw
error text as the serialized error code — not `status = OFFLINE` with
only a local debug string, as the claim states for every
server/infrastructure error. -/
theorem arm_infra_error_serialized_not_offline :
    armInfraErrDevice.execute (CommandType.ArmDisarm none true none none) =
      PanicOr.ok ({ id := "arm0", status := CommandStatus.Error, state := none,
                    error := some { msg := "hardware unreachable" }, debug_string := none },
                  armInfraErrDevice) ∧
    CommandStatus.Error ≠ CommandStatus.Offline := ⟨rfl, by decide⟩

/-- C1 amended: the dispatcher fold maps every `Serializable` outcome of
`execute_inner` to `status = ERROR` with the error serialized as the
error code and no state, and every `Server` outcome to `status = OFFLINE`
with no state, no serialized error and only a local debug string carrying
the error text; a `Server` outcome arises exactly from the `Other`
variant of `CombinedDeviceError`-typed operations, while the
capability-specific error unions — including their infrastructure
`Other` variants — are folded entirely into `Serializable`. -/
theorem execute_error_taxonomy_amended (σ : Type) (dev : Device σ)
    (command : CommandType) :
    (∀ e s2, dev.execute_inner command = PanicOr.ok (Except.error (ExecuteError.Serializable e), s2) →
        dev.execute command = PanicOr.ok
          ({ id := dev.id, status := CommandStatus.Error, state := none,
             error := some { msg := e }, debug_string := none }, { dev with inner := s2 })) ∧
    (∀ e s2, dev.execute_inner command = PanicOr.ok (Except.error (ExecuteError.Server e), s2) →
        dev.execute command = PanicOr.ok
          ({ id := dev.id, status := CommandStatus.Offline, state := none,
             error := none, debug_string := some e }, { dev with inner := s2 })) ∧
    (∀ msg, ExecuteError.fromCombined (CombinedDeviceError.Other msg) = ExecuteError.Server msg) ∧
    (∀ e : ArmDisarmError, ExecuteError.fromArmDisarm e = ExecuteError.Serializable e.display) ∧
    (∀ e : CookError, ExecuteError.fromCook e = ExecuteError.Serializable e.display) ∧
    (∀ e : DispenseError, ExecuteError.fromDispense e = ExecuteError.Serializable e.display) ∧
    (∀ e : EnergyStorageError, ExecuteError.fromEnergyStorage e = ExecuteError.Serializable e.display) ∧
    (∀ e : FanSpeedError, ExecuteError.fromFanSpeed e = ExecuteError.Serializable e.display) ∧
    (∀ e : InputSelectorError, ExecuteError.fromInputSelector e = ExecuteError.Serializable e.display) ∧
    (∀ e : LockUnlockError, ExecuteError.fromLockUnlock e = ExecuteError.Serializable e.display) ∧
    (∀ e : NetworkControlError, ExecuteError.fromNetworkControl e = ExecuteError.Serializable e.display) ∧
    (∀ e : OpenCloseError, ExecuteError.fromOpenClose e = ExecuteError.Serializable e.display) := by
  refine ⟨?_, ?_, fun _ => rfl, fun _ => rfl, fun _ => rfl, fun _ => rfl,
    fun _ => rfl, fun _ => rfl, fun _ => rfl, fun _ => rfl, fun _ => rfl, fun _ => rfl⟩
  · intro e s2 h
    unfold Device.execute
    rw [h]
  · intro e s2 h
    unfold Device.execute
    rw [h]

/-- Test-device scaffolding: a switch whose `set_on` fails with the
`Other` (infrastructure) case of `CombinedDeviceError`. -/
def switchInfraErrImpl : DeviceImpl Unit :=
  { defaultImpl Unit with
    on_off :=
      { is_on := fun _ => Except.ok false
        set_on := fun _ s => (Except.error (CombinedDeviceError.Other "io fail"), s) } }

/-- The infrastructure-failing switch with its capability registered. -/
def switchInfraErrDevice : Device Unit :=
  (Device.new () switchInfraErrImpl DeviceType.Switch "sw1").set_on_off

/-- Witness for the amended C1 theorem: a concrete infrastructure error
from a `CombinedDeviceError`-typed operation is reported as OFFLINE with
only a debug string. -/
theorem execute_error_taxonomy_amended_witness :
    switchInfraErrDevice.execute (CommandType.OnOff true) =
      PanicOr.ok ({ id := "sw1", status := CommandStatus.Offline, state := none,
                    error := none, debug_string := some "io fail" },
                  switchInfraErrDevice) :=
  (execute_error_taxonomy_amended Unit switchInfraErrDevice
    (CommandType.OnOff true)).2.1 "io fail" () rfl

/-- Test-device scaffolding: an offline switch whose `is_on` state getter
fails with an infrastructure error. -/
def offlineGetterErrImpl : DeviceImpl Unit :=
  { defaultImpl Unit with
    google_home_device := { defaultGoogleHomeDevice Unit with is_online := fun _ => false }
    on_off :=
      { is_on := fun _ => Except.error (CombinedDeviceError.Other "sensor read failed")
        set_on := fun _ s => (Except.ok (), s) } }

/-- The offline failing-getter switch with its capability registered. -/
def offlineGetterErrDevice : Device Unit :=
  (Device.new () offlineGetterErrImpl DeviceType.Switch "q0").set_on_off

/-- C3 counterexample: QUERY runs the capability state getters before the
offline check, so an offline device whose getter fails reports
`status = ERROR` (with the getter's error text), not `status = OFFLINE` —
the collector does not short-circuit before invoking capability
getters. -/
theorem offline_device_getter_error_reports_error_status :
    offlineGetterErrDevice.query =
      { required := { status := QueryStatus.Error, «on» := false, online := false,
                      error_code := some "sensor read failed" }, traits := none } ∧
    QueryStatus.Error ≠ QueryStatus.Offline := ⟨rfl, by decide⟩

/-- C3 amended: for a device whose identity contract reports it offline
and whose state getters all succeed (the getters are still invoked
first), QUERY returns `status = OFFLINE` with `online = false`,
`on = true`, no error code and no state fragment. -/
theorem query_offline_reporting_amended (σ : Type) (dev : Device σ)
    (st : TraitsQueryDeviceState)
    (hstates : dev.query_get_states = Except.ok st)
    (honline : dev.impl.google_home_device.is_online dev.inner = false) :
    dev.query =
      { required := { status := QueryStatus.Offline, «on» := true, online := false,
                      error_code := none }, traits := none } := by
  unfold Device.query
  rw [hstates, honline]
  rfl

/-- Test-device scaffolding: an offline switch whose getters all
succeed. -/
def offlineOkImpl : DeviceImpl Unit :=
  { defaultImpl Unit with
    google_home_device := { defaultGoogleHomeDevice Unit with is_online := fun _ => false } }

/-- The offline healthy switch with its capability registered. -/
def offlineOkDevice : Device Unit :=
  (Device.new () offlineOkImpl DeviceType.Switch "q1").set_on_off

/-- Witness for the amended C3 theorem at a concrete offline device. -/
theorem query_offline_reporting_amended_witness :
    offlineOkDevice.query =
      { required := { status := QueryStatus.Offline, «on» := true, online := false,
                      error_code := none }, traits := none } :=
  query_offline_reporting_amended Unit offlineOkDevice { «on» := some false } rfl rfl

/-- Test-device scaffolding: an offline light whose brightness getter
fails with an infrastructure error. -/
def offlineBrightnessErrImpl : DeviceImpl Unit :=
  { defaultImpl Unit with
    google_home_device := { defaultGoogleHomeDevice Unit with is_online := fun _ => false }
    brightness :=
      { get_brightness := fun _ => Except.error (CombinedDeviceError.Other "brightness bus fault")
        set_brightness_absolute := fun _ s => (Except.ok (), s)
        set_brightness_relative_percent := fun _ s => (Except.ok (), s)
        set_brightness_relative_weight := fun _ s => (Except.ok (), s) } }

/-- The offline failing-brightness light with its capability
registered. -/
def offlineBrightnessErrDevice : Device Unit :=
  (Device.new () offlineBrightnessErrImpl DeviceType.Light "q2").set_brightness

/-- C5 counterexample: an offline device whose capability getter raises
an infrastructure error reports `status = ERROR`, not `status = OFFLINE`:
the getter-error branch preempts the offline branch, so QUERY does not
report OFFLINE "regardless of what any capability getter would
return". -/
theorem query_error_preempts_offline :
    offlineBrightnessErrDevice.query =
      { required := { status := QueryStatus.Error, «on» := false, online := false,
                      error_code := some "brightness bus fault" }, traits := none } ∧
    QueryStatus.Error ≠ QueryStatus.Offline := ⟨rfl, by decide⟩

/-- C5 amended: QUERY's three-state decision is evaluated top to bottom
as (infrastructure error) > (offline) > (success): a getter error yields
`status = ERROR` with the error text and no partial state, even for an
offline device (`online` then still reflects the identity contract);
with all getters succeeding, an offline device yields `status = OFFLINE`
and an online device yields `status = SUCCESS` with the full state
fragment attached. -/
theorem query_precedence_amended (σ : Type) (dev : Device σ) :
    (∀ e, dev.query_get_states = Except.error e →
        dev.query =
          { required := { status := QueryStatus.Error, «on» := false,
                          online := dev.impl.google_home_device.is_online dev.inner,
                          error_code := some e }, traits := none }) ∧
    (∀ st, dev.query_get_states = Except.ok st →
        dev.impl.google_home_device.is_online dev.inner = false →
        dev.query =
          { required := { status := QueryStatus.Offline, «on» := true, online := false,
                          error_code := none }, traits := none }) ∧
    (∀ st, dev.query_get_states = Except.ok st →
        dev.impl.google_home_device.is_online dev.inner = true →
        dev.query =
          { required := { status := QueryStatus.Success, online := true, «on» := true,
                          error_code := none }, traits := some st }) := by
  refine ⟨?_, ?_, ?_⟩
  · intro e h
    unfold Device.query
    rw [h]
  · intro st h honline
    unfold Device.query
    rw [h, honline]
    rfl
  · intro st h honline
    unfold Device.query
    rw [h, honline]
    rfl

/-- Test-device scaffolding: an online switch whose getters all
succeed. -/
def onlineSwitchDevice : Device Unit :=
  (Device.new () (defaultImpl Unit) DeviceType.Switch "q3").set_on_off

/-- Witness for the amended C5 theorem: the success branch at a concrete
online device. -/
theorem query_precedence_amended_witness :
    onlineSwitchDevice.query =
      { required := { status := QueryStatus.Success, online := true, «on» := true,
                      error_code := none }, traits := some { «on» := some false } } :=
  (query_precedence_amended Unit onlineSwitchDevice).2.2 { «on» := some false } rfl rfl

/-- C6 amended: when a request carries at least one input, a successful
`handle_request` returns exactly one response payload, and that payload
is the one produced by processing the first input against the initial
device state; payloads of the later inputs are discarded (though the
later inputs are still processed, see the mutation counterexample). -/
theorem response_payload_from_first_input (σ : Type) (hl : Homelander σ)
    (request : Request) (i : Input) (rest : List Input)
    (hinputs : request.inputs = i :: rest)
    (r : Response) (hl2 : Homelander σ)
    (hok : hl.handle_request request = PanicOr.ok (r, hl2)) :
    r.request_id = request.request_id ∧
    ∃ hl1 : Homelander σ, hl.processInput i = PanicOr.ok (r.payload, hl1) := by
  unfold Homelander.handle_request at hok
  rw [hinputs] at hok
  simp only [processInputs] at hok
  rcases h1 : hl.processInput i with m | ⟨p, hl1⟩
  · rw [h1] at hok
    dsimp only at hok
    exact PanicOr.noConfusion hok
  · rw [h1] at hok
    dsimp only at hok
    rcases h2 : processInputs rest hl1 with m2 | ⟨ps, hl3⟩
    · rw [h2] at hok
      dsimp only at hok
      exact PanicOr.noConfusion hok
    · rw [h2] at hok
      dsimp only at hok
      simp only [PanicOr.ok.injEq, Prod.mk.injEq] at hok
      rcases hok with ⟨hr, _⟩
      subst hr
      exact ⟨rfl, ⟨hl1, rfl⟩⟩

/-- Test-device scaffolding: a stateful switch over `Bool` whose state is
the on/off flag (in the style of `UltimateSwitch` in
`tests/execute.rs`). -/
def switchImpl : DeviceImpl Bool :=
  { defaultImpl Bool with
    on_off :=
      { is_on := fun s => Except.ok s
        set_on := fun v _ => (Except.ok (), v) } }

/-- The stateful switch, initially off, with its capability
registered. -/
def switchDevice : Device Bool :=
  (Device.new false switchImpl DeviceType.Switch "sw").set_on_off

/-- Orchestrator owning the stateful switch. -/
def twoInputHl : Homelander Bool :=
  { agent_user_id := "agent", devices := [switchDevice] }

/-- An EXECUTE input carrying a single OnOff command for the switch. -/
def execOnOffInput (v : Bool) : Input :=
  Input.Execute
    { commands := [ { devices := [ { id := "sw" } ],
                      execution := [CommandType.OnOff v] } ] }

/-- A request whose first input switches the device off and whose second
input switches it on. -/
def twoInputRequest : Request :=
  { request_id := "r", inputs := [execOnOffInput false, execOnOffInput true] }

/-- C6 counterexample: with two EXECUTE inputs, the response payload is
built from the first input only, but the second input's command is still
dispatched and mutates the device — after the request the switch state
is `true`, set by the second input. -/
theorem second_input_still_mutates_devices :
    (match twoInputHl.handle_request twoInputRequest with
     | PanicOr.ok (r, hl2) =>
         r.payload = ResponsePayload.Execute
           { commands := [ { ids := ["sw"], status := CommandStatus.Success,
                             states := some {}, error_code := none,
                             debug_string := none } ] } ∧
         hl2.devices.map (fun d => d.inner) = [true]
     | PanicOr.panicked _ => False) := ⟨rfl, rfl⟩

/-- A request whose first input is SYNC and whose second input is an
EXECUTE command. -/
def twoInputSyncRequest : Request :=
  { request_id := "r", inputs := [Input.Sync, execOnOffInput true] }

/-- The orchestrator state after handling `twoInputSyncRequest`: the
second input switched the device on. -/
def twoInputSyncHlAfter : Homelander Bool :=
  { agent_user_id := "agent", devices := [{ switchDevice with inner := true }] }

/-- Witness for the amended C6 theorem: a concrete two-input request
whose response carries the first input's payload. -/
theorem response_payload_from_first_input_witness :
    ({ request_id := "r", payload := ResponsePayload.Sync { agent_user_id := "agent", devices := [switchDevice.sync] } } : Response).request_id = twoInputSyncRequest.request_id ∧
    ∃ hl1 : Homelander Bool,
      twoInputHl.processInput Input.Sync =
        PanicOr.ok (({ request_id := "r", payload := ResponsePayload.Sync { agent_user_id := "agent", devices := [switchDevice.sync] } } : Response).payload, hl1) :=
  response_payload_from_first_input Bool twoInputHl twoInputSyncRequest
    Input.Sync [execOnOffInput true] rfl
    { request_id := "r", payload := ResponsePayload.Sync { agent_user_id := "agent", devices := [switchDevice.sync] } }
    twoInputSyncHlAfter rfl

/-- Symmetry of string equality tests. -/
theorem strBeqSymm (a b : String) : (a == b) = (b == a) := by
  by_cases h : a = b
  · subst h
    rfl
  · have h1 : (a == b) = false := beq_eq_false_iff_ne.mpr h
    have h2 : (b == a) = false := beq_eq_false_iff_ne.mpr (Ne.symm h)
    rw [h1, h2]

/-- The dispatcher stamps its own device id on a successful output and
leaves the device id unchanged. -/
theorem execute_output_id {σ : Type} (d : Device σ) (c : CommandType)
    (out : CommandOutput) (d2 : Device σ)
    (h : d.execute c = PanicOr.ok (out, d2)) : out.id = d.id ∧ d2.id = d.id := by
  unfold Device.execute at h
  rcases h' : d.execute_inner c with m | ⟨res, s2⟩
  · rw [h'] at h
    exact PanicOr.noConfusion h
  · rw [h'] at h
    rcases res with e | st
    · rcases e with e | e <;>
        (dsimp only at h
         simp only [PanicOr.ok.injEq, Prod.mk.injEq] at h
         rcases h with ⟨hout, hd⟩
         subst hout
         subst hd
         exact ⟨rfl, rfl⟩)
    · dsimp only at h
      simp only [PanicOr.ok.injEq, Prod.mk.injEq] at h
      rcases h with ⟨hout, hd⟩
      subst hout
      subst hd
      exact ⟨rfl, rfl⟩

/-- The matching-device loop preserves the registry ids, stamps the
target id on every output, and produces outputs exactly when the id has
a registry match. -/
theorem executeMatchingDevices_spec {σ : Type} (device_id : String) (cmd : CommandType) :
    ∀ (devs : List (Device σ)) (outs : List CommandOutput) (devs2 : List (Device σ)),
      executeMatchingDevices device_id cmd devs = PanicOr.ok (outs, devs2) →
      devs2.map (fun d => d.id) = devs.map (fun d => d.id) ∧
      (∀ o ∈ outs, o.id = device_id) ∧
      (outs.isEmpty = !((devs.map (fun d => d.id)).contains device_id)) := by
  intro devs
  induction devs with
  | nil =>
    intro outs devs2 h
    simp only [executeMatchingDevices] at h
    simp only [PanicOr.ok.injEq, Prod.mk.injEq] at h
    rcases h with ⟨houts, hdevs⟩
    subst houts
    subst hdevs
    simp [List.contains]
  | cons d rest ih =>
    intro outs devs2 h
    simp only [executeMatchingDevices] at h
    split at h
    case isTrue hid =>
      rcases hx : d.execute cmd with m | ⟨out, d2⟩
      · rw [hx] at h
        exact PanicOr.noConfusion h
      · rw [hx] at h
        dsimp only at h
        rcases hr : executeMatchingDevices device_id cmd rest with m | ⟨outs', rest2⟩
        · rw [hr] at h
          exact PanicOr.noConfusion h
        · rw [hr] at h
          dsimp only at h
          simp only [PanicOr.ok.injEq, Prod.mk.injEq] at h
          rcases h with ⟨houts, hdevs⟩
          subst houts
          subst hdevs
          obtain ⟨hoid, hdid⟩ := execute_output_id d cmd out d2 hx
          obtain ⟨ihmap, ihall, _⟩ := ih outs' rest2 hr
          refine ⟨?_, ?_, ?_⟩
          · simp [ihmap, hdid]
          · intro o ho
            rcases List.mem_cons.mp ho with rfl | ho'
            · rw [hoid]
              exact eq_of_beq hid
            · exact ihall o ho'
          · have hid2 : (device_id == d.id) = true := (strBeqSymm device_id d.id).trans hid
            simp only [List.isEmpty_cons, List.map_cons, List.contains_cons, hid2,
              Bool.true_or, Bool.not_true]
    case isFalse hid =>
      rcases hr : executeMatchingDevices device_id cmd rest with m | ⟨outs', rest2⟩
      · rw [hr] at h
        exact PanicOr.noConfusion h
      · rw [hr] at h
        dsimp only at h
        simp only [PanicOr.ok.injEq, Prod.mk.injEq] at h
        rcases h with ⟨houts, hdevs⟩
        subst houts
        subst hdevs
        obtain ⟨ihmap, ihall, ihempty⟩ := ih outs' rest2 hr
        have hid2 : (device_id == d.id) = false :=
          (strBeqSymm device_id d.id).trans (Bool.eq_false_iff.mpr hid)
        refine ⟨by simp [ihmap], ihall, ?_⟩
        simp only [List.map_cons, List.contains_cons, hid2, Bool.false_or]
        exact ihempty

/-- `Homelander::execute` preserves the registry ids and yields exactly
one output — stamped with the target id — when and only when the id has
a registry match. -/
theorem homelander_execute_spec {σ : Type} (hl : Homelander σ) (device_id : String)
    (cmd : CommandType) (opt : Option CommandOutput) (hl2 : Homelander σ)
    (h : hl.execute device_id cmd = PanicOr.ok (opt, hl2)) :
    hl2.devices.map (fun d => d.id) = hl.devices.map (fun d => d.id) ∧
    opt.map (fun o => o.id) =
      (if (hl.devices.map (fun d => d.id)).contains device_id
       then some device_id else none) := by
  unfold Homelander.execute at h
  rcases hm : executeMatchingDevices device_id cmd hl.devices with m | ⟨outs, devs⟩
  · rw [hm] at h
    exact PanicOr.noConfusion h
  · rw [hm] at h
    dsimp only at h
    obtain ⟨hmap, hall, hempty⟩ := executeMatchingDevices_spec device_id cmd hl.devices outs devs hm
    rcases outs with _ | ⟨o, outs'⟩
    · dsimp only at h
      simp only [PanicOr.ok.injEq, Prod.mk.injEq] at h
      rcases h with ⟨hopt, hhl⟩
      subst hopt
      subst hhl
      simp only [List.isEmpty_nil] at hempty
      have hc : (hl.devices.map (fun d => d.id)).contains device_id = false := by
        cases hcc : (hl.devices.map (fun d => d.id)).contains device_id
        · rfl
        · rw [hcc] at hempty
          exact absurd hempty (by decide)
      refine ⟨hmap, ?_⟩
      rw [hc]
      rfl
    · dsimp only at h
      simp only [PanicOr.ok.injEq, Prod.mk.injEq] at h
      rcases h with ⟨hopt, hhl⟩
      subst hopt
      subst hhl
      simp only [List.isEmpty_cons] at hempty
      have hc : (hl.devices.map (fun d => d.id)).contains device_id = true := by
        cases hcc : (hl.devices.map (fun d => d.id)).contains device_id
        · rw [hcc] at hempty
          exact absurd hempty (by decide)
        · rfl
      refine ⟨hmap, ?_⟩
      rw [hc]
      show some o.id = some device_id
      rw [hall o (List.mem_cons_self o outs')]

/-- The per-device command loop: the reported (non-dropped) outputs are
one per execution command — all stamped with the device id — when the id
has a registry match, and none otherwise. -/
theorem execCommandsForDevice_spec {σ : Type} (device_id : String) :
    ∀ (cmds : List CommandType) (hl : Homelander σ)
      (outs : List (Option CommandOutput)) (hl2 : Homelander σ),
      execCommandsForDevice device_id cmds hl = PanicOr.ok (outs, hl2) →
      hl2.devices.map (fun d => d.id) = hl.devices.map (fun d => d.id) ∧
      (outs.filterMap id).map (fun o => o.id) =
        (if (hl.devices.map (fun d => d.id)).contains device_id
         then cmds.map (fun _ => device_id) else []) := by
  intro cmds
  induction cmds with
  | nil =>
    intro hl outs hl2 h
    simp only [execCommandsForDevice] at h
    simp only [PanicOr.ok.injEq, Prod.mk.injEq] at h
    rcases h with ⟨houts, hhl⟩
    subst houts
    subst hhl
    refine ⟨rfl, ?_⟩
    cases hc : (hl.devices.map (fun d => d.id)).contains device_id
    · rfl
    · rfl
  | cons c rest ih =>
    intro hl outs hl2 h
    simp only [execCommandsForDevice] at h
    rcases hx : hl.execute device_id c with m | ⟨opt, hlmid⟩
    · rw [hx] at h
      exact PanicOr.noConfusion h
    · rw [hx] at h
      dsimp only at h
      rcases hr : execCommandsForDevice device_id rest hlmid with m | ⟨outs', hl3⟩
      · rw [hr] at h
        exact PanicOr.noConfusion h
      · rw [hr] at h
        dsimp only at h
        simp only [PanicOr.ok.injEq, Prod.mk.injEq] at h
        rcases h with ⟨houts, hhl⟩
        subst houts
        subst hhl
        obtain ⟨hids, hopt⟩ := homelander_execute_spec hl device_id c opt hlmid hx
        obtain ⟨ihids, ihouts⟩ := ih hlmid outs' hl3 hr
        rw [hids] at ihouts
        refine ⟨ihids.trans hids, ?_⟩
        cases hc : (hl.devices.map (fun d => d.id)).contains device_id
        · rw [hc] at hopt ihouts
          have hnone : opt = none := by
            rcases opt with _ | o
            · rfl
            · simp at hopt
          subst hnone
          rw [show List.filterMap id (none :: outs') = List.filterMap id outs' from rfl, ihouts]
          rfl
        · rw [hc] at hopt ihouts
          rcases opt with _ | o
          · simp at hopt
          · have hoid : o.id = device_id := by
              simpa using hopt
            rw [show List.filterMap id (some o :: outs') = o :: List.filterMap id outs' from rfl]
            rw [List.map_cons, hoid, ihouts]
            rfl

/-- The per-group device loop: the flattened outputs carry exactly one
entry per (device id, execution command) pair whose id has a registry
match, in request order, independent of any dispatch outcome. -/
theorem execDevicesOfGroup_spec {σ : Type} (execution : List CommandType) :
    ∀ (ds : List ReqDevice) (hl : Homelander σ)
      (outs : List CommandOutput) (hl2 : Homelander σ),
      execDevicesOfGroup execution ds hl = PanicOr.ok (outs, hl2) →
      hl2.devices.map (fun d => d.id) = hl.devices.map (fun d => d.id) ∧
      outs.map (fun o => o.id) =
        ds.flatMap (fun d =>
          if (hl.devices.map (fun x => x.id)).contains d.id
          then execution.map (fun _ => d.id) else []) := by
  intro ds
  induction ds with
  | nil =>
    intro hl outs hl2 h
    simp only [execDevicesOfGroup] at h
    simp only [PanicOr.ok.injEq, Prod.mk.injEq] at h
    rcases h with ⟨houts, hhl⟩
    subst houts
    subst hhl
    exact ⟨rfl, rfl⟩
  | cons d rest ih =>
    intro hl outs hl2 h
    simp only [execDevicesOfGroup] at h
    rcases hx : execCommandsForDevice d.id execution hl with m | ⟨outsd, hlmid⟩
    · rw [hx] at h
      exact PanicOr.noConfusion h
    · rw [hx] at h
      dsimp only at h
      rcases hr : execDevicesOfGroup execution rest hlmid with m | ⟨outs2, hl3⟩
      · rw [hr] at h
        exact PanicOr.noConfusion h
      · rw [hr] at h
        dsimp only at h
        simp only [PanicOr.ok.injEq, Prod.mk.injEq] at h
        rcases h with ⟨houts, hhl⟩
        subst houts
        subst hhl
        obtain ⟨hids, houtsd⟩ := execCommandsForDevice_spec d.id execution hl outsd hlmid hx
        obtain ⟨ihids, ihouts⟩ := ih hlmid outs2 hl3 hr
        rw [hids] at ihouts
        refine ⟨ihids.trans hids, ?_⟩
        rw [List.flatMap_cons, List.map_append, houtsd, ihouts]

/-- The command-group loop: the concatenated outputs over all groups, in
request order. -/
theorem execGroups_spec {σ : Type} :
    ∀ (groups : List ReqCommand) (hl : Homelander σ)
      (outs : List CommandOutput) (hl2 : Homelander σ),
      execGroups groups hl = PanicOr.ok (outs, hl2) →
      hl2.devices.map (fun d => d.id) = hl.devices.map (fun d => d.id) ∧
      outs.map (fun o => o.id) =
        groups.flatMap (fun g =>
          g.devices.flatMap (fun d =>
            if (hl.devices.map (fun x => x.id)).contains d.id
            then g.execution.map (fun _ => d.id) else [])) := by
  intro groups
  induction groups with
  | nil =>
    intro hl outs hl2 h
    simp only [execGroups] at h
    simp only [PanicOr.ok.injEq, Prod.mk.injEq] at h
    rcases h with ⟨houts, hhl⟩
    subst houts
    subst hhl
    exact ⟨rfl, rfl⟩
  | cons g rest ih =>
    intro hl outs hl2 h
    simp only [execGroups] at h
    rcases hx : execDevicesOfGroup g.execution g.devices hl with m | ⟨outsg, hlmid⟩
    · rw [hx] at h
      exact PanicOr.noConfusion h
    · rw [hx] at h
      dsimp only at h
      rcases hr : execGroups rest hlmid with m | ⟨outs2, hl3⟩
      · rw [hr] at h
        exact PanicOr.noConfusion h
      · rw [hr] at h
        dsimp only at h
        simp only [PanicOr.ok.injEq, Prod.mk.injEq] at h
        rcases h with ⟨houts, hhl⟩
        subst houts
        subst hhl
        obtain ⟨hids, houtsg⟩ := execDevicesOfGroup_spec g.execution g.devices hl outsg hlmid hx
        obtain ⟨ihids, ihouts⟩ := ih hlmid outs2 hl3 hr
        rw [hids] at ihouts
        refine ⟨ihids.trans hids, ?_⟩
        rw [List.flatMap_cons, List.map_append, houtsg, ihouts]

/-- Every response entry carries exactly the single id of its output. -/
theorem commandOutputToResponse_ids (o : CommandOutput) :
    (commandOutputToResponse o).ids = [o.id] := by
  rcases o with ⟨id, status, state, err, dbg⟩
  cases status <;> rfl

/-- Response shape predicted by the spec (section 4.4) for an EXECUTE
payload: the reported device ids, one per (command group, device id,
execution command) triple whose device id has at least one registry
match, independent of every dispatch outcome.  This definition follows
the spec's words and serves as the refinement target for the batch
independence claim. -/
def expectedExecuteIds (registryIds : List String) (e : ExecuteRequestPayload) : List String :=
  e.commands.flatMap (fun g =>
    g.devices.flatMap (fun d =>
      if registryIds.contains d.id then g.execution.map (fun _ => d.id) else []))

/-- C2: per-command failures never abort the batch — for every EXECUTE
input, the response carries exactly one single-id entry per (command
group, device id, execution command) triple whose id has a registry
match, a shape that depends only on the request and the registry ids and
is therefore unaffected by any domain or infrastructure error of any
individual command; the registry ids themselves are also preserved. -/
theorem execute_batch_isolation (σ : Type) (hl : Homelander σ)
    (e : ExecuteRequestPayload) (p : ExecuteResponsePayload) (hl2 : Homelander σ)
    (h : hl.processExecute e = PanicOr.ok (p, hl2)) :
    p.commands.map (fun c => c.ids) =
      (expectedExecuteIds (hl.devices.map (fun d => d.id)) e).map (fun i => [i]) ∧
    hl2.devices.map (fun d => d.id) = hl.devices.map (fun d => d.id) := by
  unfold Homelander.processExecute at h
  rcases hg : execGroups e.commands hl with m | ⟨outs, hl3⟩
  · rw [hg] at h
    exact PanicOr.noConfusion h
  · rw [hg] at h
    dsimp only at h
    simp only [PanicOr.ok.injEq, Prod.mk.injEq] at h
    rcases h with ⟨hp, hhl⟩
    subst hp
    subst hhl
    obtain ⟨hids, houts⟩ := execGroups_spec e.commands hl outs hl3 hg
    refine ⟨?_, hids⟩
    show (outs.map commandOutputToResponse).map (fun c => c.ids) = _
    rw [List.map_map]
    have hcomp : ((fun c : ResponseCommand => c.ids) ∘ commandOutputToResponse) =
        fun o : CommandOutput => [o.id] :=
      funext fun o => commandOutputToResponse_ids o
    rw [hcomp]
    have hsing : (fun o : CommandOutput => [o.id]) =
        (fun i : String => [i]) ∘ (fun o : CommandOutput => o.id) := rfl
    rw [hsing, ← List.map_map, houts]
    rfl

/-- Test-device scaffolding: a switch that infrastructure-fails on every
`set_on`, registered under id `a`. -/
def batchDeviceA : Device Unit :=
  (Device.new () switchInfraErrImpl DeviceType.Switch "a").set_on_off

/-- Test-device scaffolding: a healthy switch registered under id `b`. -/
def batchDeviceB : Device Unit :=
  (Device.new () (defaultImpl Unit) DeviceType.Switch "b").set_on_off

/-- Orchestrator owning the failing and the healthy switch. -/
def batchHl : Homelander Unit :=
  { agent_user_id := "batch", devices := [batchDeviceA, batchDeviceB] }

/-- An EXECUTE payload with one group targeting the failing device, the
healthy device and an unknown id. -/
def batchPayload : ExecuteRequestPayload :=
  { commands := [ { devices := [ { id := "a" }, { id := "b" }, { id := "zz" } ],
                    execution := [CommandType.OnOff true] } ] }

/-- The response produced for `batchPayload`: the failing device's error
is reported in its own entry and does not prevent the healthy device's
entry. -/
def batchResponse : ExecuteResponsePayload :=
  { commands := [ { ids := ["a"], status := CommandStatus.Offline, states := none,
                    error_code := none, debug_string := some "io fail" },
                  { ids := ["b"], status := CommandStatus.Success, states := some {},
                    error_code := none, debug_string := none } ] }

/-- Witness for the C2 theorem at a concrete batch in which one device
infrastructure-fails, another succeeds, and one id has no match. -/
theorem execute_batch_isolation_witness :
    batchResponse.commands.map (fun c => c.ids) =
      (expectedExecuteIds (batchHl.devices.map (fun d => d.id)) batchPayload).map (fun i => [i]) ∧
    batchHl.devices.map (fun d => d.id) = batchHl.devices.map (fun d => d.id) :=
  execute_batch_isolation Unit batchHl batchPayload batchResponse batchHl rfl

end HomelanderModel
